import Mathlib

/-!
peerapi: the session orchestration layer.

A shallow embedding of `src/peer.cc` (classes `PeerControl` and
`PeerDataChannelObserver`) and of the reconnect-delay setters of
`src/signalconnection.h` (class `Signal`), followed by theorems about them.

Conventions of the embedding

* A C++ member function becomes a function from the object before the call to
  an `Outcome`: the object after the call, the calls made on collaborators (and
  the assignments to `state_`) in the order they happen, and either the value
  returned or the fault that stopped the call.
* `rtc::scoped_refptr` and `std::unique_ptr` members are `Option`s; calling
  through an empty one is the fault `null_dereference`.
* `RTC_DCHECK` comes from the WebRTC headers: it aborts when the build has
  `RTC_DCHECK_IS_ON` and is a no-op otherwise.  The build is a parameter.
* The connectivity engine is external.  What it answers when asked to create a
  peer connection or a data channel is carried by the handle that is asked;
  what a channel answers to `Send` is an argument of the sending operation.
* The control layer (`control_`) is the receiver of the logged calls.
* Releasing an adapter (`unique_ptr` reset) is the assignment of `none` to its
  slot; what the adapter's destructor then does to the channel it gives up is
  not part of the log.
-/

namespace peerapi

/-! ## Types declared outside `peer.cc` -/

/-- Session state, the enumerators `peer.cc` assigns to `state_`. -/
inductive PeerState where
  | pClosed
  | pConnecting
  | pOpen
  | pClosing
  deriving DecidableEq, Repr

/-- The type `webrtc::DataChannelInterface::DataState`. -/
inductive DataState where
  | kConnecting
  | kOpen
  | kClosing
  | kClosed
  deriving DecidableEq, Repr

/-- The type `webrtc::PeerConnectionInterface::IceConnectionState`. -/
inductive IceConnectionState where
  | kIceConnectionNew
  | kIceConnectionChecking
  | kIceConnectionConnected
  | kIceConnectionCompleted
  | kIceConnectionFailed
  | kIceConnectionDisconnected
  | kIceConnectionClosed
  | kIceConnectionMax
  deriving DecidableEq, Repr

/-- Modelled from the spec: the `CloseCode` enumeration is declared in a header
that is not part of the sources at hand.  The spec names a "going away" code
used for abnormal disconnects, distinguished from a normal explicit close
code; every other code is `other n`. -/
inductive CloseCode where
  | CLOSE_NORMAL
  | CLOSE_GOING_AWAY
  | other (n : Nat)
  deriving DecidableEq, Repr

/-- Modelled from the spec: the constant `FORCE_QUEUING_ON` is declared in a
header that is not part of the sources at hand; the spec calls it "forced-queuing
enabled". -/
def FORCE_QUEUING_ON : Bool := true

/-- The string constant `webrtc::SessionDescriptionInterface::kOffer`. -/
def kOffer : String := "offer"

/-- The string constant `webrtc::SessionDescriptionInterface::kAnswer`. -/
def kAnswer : String := "answer"

/-- Compile-time configuration: whether `RTC_DCHECK` is active, and the value
the header gives `PeerDataChannelObserver::max_buffer_size_`. -/
structure Build where
  RTC_DCHECK_IS_ON : Bool
  max_buffer_size_ : Nat
  deriving DecidableEq, Repr

/-- What stops a call before it returns. -/
inductive Fault where
  | dcheck_failed
  | null_dereference
  deriving DecidableEq, Repr

/-- How a call ends: it returns a value, or it is stopped by a fault. -/
inductive Completion (α : Type) where
  | returned (a : α)
  | stopped (f : Fault)
  deriving DecidableEq, Repr

/-- A transport channel as this code observes it (`state()` and
`buffered_amount()`, an unsigned 64-bit count). -/
structure DataChannelInterface where
  state : DataState
  buffered_amount : Nat
  deriving DecidableEq, Repr

/-- A connectivity handle, carrying the engine's answer to
`CreateDataChannel` (null when creation fails). -/
structure PeerConnectionInterface where
  CreateDataChannel : Option DataChannelInterface
  deriving DecidableEq, Repr

/-- The factory, carrying the engine's answer to `CreatePeerConnection`
(null when creation fails). -/
structure PeerConnectionFactoryInterface where
  CreatePeerConnection : Option PeerConnectionInterface
  deriving DecidableEq, Repr

/-- A byte buffer handed to `Send`. -/
abbrev Buffer := List Nat

/-- The JSON values this code puts in a command payload. -/
inductive JsonValue where
  | str (s : String)
  | int (i : Int)
  deriving DecidableEq, Repr

/-- Calls on collaborators and assignments to `state_`, as they are logged. -/
inductive Event where
  /-- the statement `state_ = value` -/
  | state_ (value : PeerState)
  /-- `control_->OnPeerConnect(id)` -/
  | OnPeerConnect (id : String)
  /-- `control_->OnPeerWritable(id)` -/
  | OnPeerWritable (id : String)
  /-- `control_->OnPeerClose(id, code)` -/
  | OnPeerClose (id : String) (code : CloseCode)
  /-- `control_->ClosePeer(id, code, force_queuing)` -/
  | ClosePeer (id : String) (code : CloseCode) (force_queuing : Bool)
  /-- `control_->SendCommand(id, command, data)`, `data` a JSON object -/
  | SendCommand (id : String) (command : String) (data : List (String × JsonValue))
  /-- `control_->OnPeerMessage(id, buffer, size)` -/
  | OnPeerMessage (id : String) (buffer : Buffer)
  /-- `peer_connection_->CreateOffer(this, constraints)` -/
  | CreateOffer
  /-- `peer_connection_->CreateAnswer(this, constraints)` -/
  | CreateAnswer
  /-- `peer_connection_->SetLocalDescription(observer, (type, sdp))` -/
  | SetLocalDescription (type sdp : String)
  /-- `peer_connection_->SetRemoteDescription(observer, (type, sdp))` -/
  | SetRemoteDescription (type sdp : String)
  /-- `peer_connection_->AddIceCandidate(candidate)` -/
  | AddIceCandidate (sdp_mid : String) (sdp_mline_index : Int) (candidate : String)
  /-- `peer_connection_factory_->CreatePeerConnection(...)` -/
  | CreatePeerConnection
  /-- `peer_connection_->CreateDataChannel(label, &init)` -/
  | CreateDataChannel (label : String)
  /-- `channel_->Send(databuffer)` -/
  | ChannelSend (buffer : Buffer)
  deriving DecidableEq, Repr

/-- Calls on the control layer. -/
def Event.isControlCall : Event → Bool
  | .OnPeerConnect _ => true
  | .OnPeerWritable _ => true
  | .OnPeerClose _ _ => true
  | .ClosePeer _ _ _ => true
  | .SendCommand _ _ _ => true
  | .OnPeerMessage _ _ => true
  | _ => false

/-- Calls on the connectivity engine (factory, connectivity handle, channels). -/
def Event.isEngineCall : Event → Bool
  | .CreateOffer => true
  | .CreateAnswer => true
  | .SetLocalDescription _ _ => true
  | .SetRemoteDescription _ _ => true
  | .AddIceCandidate _ _ _ => true
  | .CreatePeerConnection => true
  | .CreateDataChannel _ => true
  | .ChannelSend _ => true
  | _ => false

/-! ## class PeerDataChannelObserver -/

/-- The adapter around one transport channel.  `attached_` records whether the
four signals (`SignalOnOpen_`, `SignalOnDisconnected_`, `SignalOnMessage_`,
`SignalOnBufferedAmountChange_`) are connected to the owning `PeerControl`;
`Attach` and `Detach` connect and disconnect the four together. -/
structure PeerDataChannelObserver where
  channel_ : Option DataChannelInterface
  state_ : DataState
  max_buffer_size_ : Nat
  attached_ : Bool
  deriving DecidableEq, Repr

namespace PeerDataChannelObserver

/-- The constructor: keeps the channel, registers with it and snapshots its
state. -/
def construct (b : Build) (channel : Option DataChannelInterface) :
    Completion PeerDataChannelObserver :=
  match channel with
  | none => .stopped .null_dereference
  | some c => .returned
      { channel_ := some c, state_ := c.state,
        max_buffer_size_ := b.max_buffer_size_, attached_ := false }

/-- The member `state()`: `return channel_->state();`. -/
def state (o : PeerDataChannelObserver) : Completion DataState :=
  match o.channel_ with
  | none => .stopped .null_dereference
  | some c => .returned c.state

/-- The member `IsOpen()`: `return state_ == kOpen;`. -/
def IsOpen (o : PeerDataChannelObserver) : Bool :=
  o.state_ == DataState.kOpen

/-- The member `BufferedAmount()`. -/
def BufferedAmount (o : PeerDataChannelObserver) : Completion Nat :=
  match o.channel_ with
  | none => .stopped .null_dereference
  | some c => .returned c.buffered_amount

/-- The member `IsWritable()`. -/
def IsWritable (o : PeerDataChannelObserver) : Bool :=
  match o.channel_ with
  | none => false
  | some c =>
    if !o.IsOpen then false
    else if c.buffered_amount > 0 then false
    else true

/-- The member `Send(buffer, size)`: the value returned (or the fault) and the
calls made on the channel.  `accepts` is what the channel answers to `Send`. -/
def Send (o : PeerDataChannelObserver) (buffer : Buffer) (accepts : Bool) :
    Completion Bool × List Event :=
  match o.channel_ with
  | none => (.stopped .null_dereference, [])
  | some c =>
    if c.buffered_amount ≥ o.max_buffer_size_ then (.returned false, [])
    else (.returned accepts, [.ChannelSend buffer])

/-- The member `SyncSend(buffer, size)`.  `flushed` tells whether the wait for
`buffered_amount() == 0` succeeds within the 60 seconds. -/
def SyncSend (o : PeerDataChannelObserver) (buffer : Buffer) (accepts : Bool)
    (flushed : Bool) : Completion Bool × List Event :=
  match o.channel_ with
  | none => (.stopped .null_dereference, [])
  | some _ =>
    if !accepts then (.returned false, [.ChannelSend buffer])
    else if !flushed then (.returned false, [.ChannelSend buffer])
    else (.returned true, [.ChannelSend buffer])

end PeerDataChannelObserver

/-! ## class PeerControl -/

/-- One peer session.  `control_` is not a field: the calls made on it are the
control-layer events of the log. -/
structure PeerControl where
  local_id_ : String
  remote_id_ : String
  peer_connection_factory_ : Option PeerConnectionFactoryInterface
  peer_connection_ : Option PeerConnectionInterface
  local_data_channel_ : Option PeerDataChannelObserver
  remote_data_channel_ : Option PeerDataChannelObserver
  state_ : PeerState
  deriving DecidableEq, Repr

/-- What a member function of `PeerControl` leaves behind: the session after
the call (up to the fault, if one stops it), the events in order, and how the
call ended. -/
structure Outcome (α : Type) where
  self : PeerControl
  log : List Event
  ret : Completion α
  deriving DecidableEq, Repr

/-- Sequencing: the second part runs on the session the first part left, unless
the first part was stopped by a fault. -/
def Outcome.andThen {α β : Type} (o : Outcome α) (f : α → PeerControl → Outcome β) :
    Outcome β :=
  match o.ret with
  | .stopped e => ⟨o.self, o.log, .stopped e⟩
  | .returned a => ⟨(f a o.self).self, o.log ++ (f a o.self).log, (f a o.self).ret⟩

/-- Forget the returned value. -/
def Outcome.void {α : Type} (o : Outcome α) : Outcome Unit :=
  ⟨o.self, o.log,
    match o.ret with
    | .stopped e => .stopped e
    | .returned _ => .returned ()⟩

/-- A session description handed to `OnSuccess`: its type and what
`ToString` produces (nothing when serialisation fails). -/
structure SessionDescriptionInterface where
  type : String
  ToString : Option String
  deriving DecidableEq, Repr

/-- An ICE candidate handed to `OnIceCandidate`. -/
structure IceCandidateInterface where
  sdp_mid : String
  sdp_mline_index : Int
  ToString : Option String
  deriving DecidableEq, Repr

namespace PeerControl

/-- The constructor: `state_(pClosed)`, no handle, no adapters. -/
def construct (local_id remote_id : String)
    (peer_connection_factory : Option PeerConnectionFactoryInterface) : PeerControl :=
  { local_id_ := local_id, remote_id_ := remote_id,
    peer_connection_factory_ := peer_connection_factory,
    peer_connection_ := none, local_data_channel_ := none,
    remote_data_channel_ := none, state_ := .pClosed }

/-- The member `Attach(datachannel)`: nothing on a null adapter, else the four
signals are connected to this session. -/
def Attach (datachannel : Option PeerDataChannelObserver) : Option PeerDataChannelObserver :=
  match datachannel with
  | none => none
  | some o => some { o with attached_ := true }

/-- The member `Detach(datachannel)`: nothing on a null adapter, else the four
signals are disconnected from this session. -/
def Detach (datachannel : Option PeerDataChannelObserver) : Option PeerDataChannelObserver :=
  match datachannel with
  | none => none
  | some o => some { o with attached_ := false }

/-- The member `DeletePeerConnection()`. -/
def DeletePeerConnection (s : PeerControl) : Outcome Unit :=
  let s1 := { s with remote_data_channel_ := Detach s.remote_data_channel_ }
  let s2 := { s1 with local_data_channel_ := Detach s1.local_data_channel_ }
  let s3 := { s2 with remote_data_channel_ := none }
  let s4 := { s3 with local_data_channel_ := none }
  let s5 := { s4 with peer_connection_ := none }
  let s6 := { s5 with peer_connection_factory_ := none }
  ⟨s6, [], .returned ()⟩

/-- The member `CreatePeerConnection()`. -/
def CreatePeerConnection (b : Build) (s : PeerControl) : Outcome Bool :=
  if b.RTC_DCHECK_IS_ON && s.peer_connection_factory_.isNone then
    ⟨s, [], .stopped .dcheck_failed⟩
  else if b.RTC_DCHECK_IS_ON && s.peer_connection_.isSome then
    ⟨s, [], .stopped .dcheck_failed⟩
  else
    match s.peer_connection_factory_ with
    | none => ⟨s, [], .stopped .null_dereference⟩
    | some f =>
      let s1 := { s with peer_connection_ := f.CreatePeerConnection }
      match s1.peer_connection_ with
      | none => ⟨s1, [.CreatePeerConnection], .returned false⟩
      | some _ => ⟨s1, [.CreatePeerConnection], .returned true⟩

/-- The member `CreateDataChannel(label, init)`. -/
def CreateDataChannel (b : Build) (label : String) (s : PeerControl) : Outcome Bool :=
  match s.peer_connection_ with
  | none => ⟨s, [], .stopped .null_dereference⟩
  | some pc =>
    match pc.CreateDataChannel with
    | none => ⟨s, [.CreateDataChannel label], .returned false⟩
    | some data_channel =>
      match PeerDataChannelObserver.construct b (some data_channel) with
      | .stopped e => ⟨s, [.CreateDataChannel label], .stopped e⟩
      | .returned o =>
        let s1 := { s with local_data_channel_ := some o }
        let s2 := { s1 with local_data_channel_ := Attach s1.local_data_channel_ }
        ⟨s2, [.CreateDataChannel label], .returned true⟩

/-- The member `Initialize()`. -/
def Initialize (b : Build) (s : PeerControl) : Outcome Bool :=
  (CreatePeerConnection b s).andThen fun created s1 =>
    if !created then
      (DeletePeerConnection s1).andThen fun _ s2 => ⟨s2, [], .returned false⟩
    else
      (CreateDataChannel b ("peer_data_" ++ s1.remote_id_) s1).andThen fun opened s2 =>
        if !opened then
          (DeletePeerConnection s2).andThen fun _ s3 => ⟨s3, [], .returned false⟩
        else ⟨s2, [], .returned true⟩

/-- The member `Send(buffer, size)`. -/
def Send (b : Build) (buffer : Buffer) (accepts : Bool) (s : PeerControl) : Outcome Bool :=
  if b.RTC_DCHECK_IS_ON && s.state_ != .pOpen then ⟨s, [], .stopped .dcheck_failed⟩
  else if s.state_ != .pOpen then ⟨s, [], .returned false⟩
  else
    match s.local_data_channel_ with
    | none => ⟨s, [], .stopped .null_dereference⟩
    | some l => ⟨s, (l.Send buffer accepts).2, (l.Send buffer accepts).1⟩

/-- The member `SyncSend(buffer, size)`. -/
def SyncSend (b : Build) (buffer : Buffer) (accepts flushed : Bool) (s : PeerControl) :
    Outcome Bool :=
  if b.RTC_DCHECK_IS_ON && s.state_ != .pOpen then ⟨s, [], .stopped .dcheck_failed⟩
  else if s.state_ != .pOpen then ⟨s, [], .returned false⟩
  else
    match s.local_data_channel_ with
    | none => ⟨s, [], .stopped .null_dereference⟩
    | some l =>
      ⟨s, (l.SyncSend buffer accepts flushed).2, (l.SyncSend buffer accepts flushed).1⟩

/-- The member `IsWritable()`. -/
def IsWritable (s : PeerControl) : Outcome Bool :=
  if s.state_ != .pOpen then ⟨s, [], .returned false⟩
  else
    match s.local_data_channel_ with
    | none => ⟨s, [], .stopped .null_dereference⟩
    | some l => ⟨s, [], .returned l.IsWritable⟩

/-- The member `Close(code)`. -/
def Close (code : CloseCode) (s : PeerControl) : Outcome Unit :=
  if s.state_ = .pClosing ∨ s.state_ = .pClosed then ⟨s, [], .returned ()⟩
  else
    let s1 := { s with state_ := .pClosing }
    let s2 :=
      match s1.peer_connection_ with
      | some _ => { s1 with peer_connection_ := none }
      | none => s1
    let s3 := { s2 with state_ := .pClosed }
    ⟨s3, [.state_ .pClosing, .state_ .pClosed, .OnPeerClose s3.remote_id_ code], .returned ()⟩

/-- The member `CreateOffer(constraints)`. -/
def CreateOffer (b : Build) (s : PeerControl) : Outcome Unit :=
  if b.RTC_DCHECK_IS_ON && s.state_ != .pClosed then ⟨s, [], .stopped .dcheck_failed⟩
  else
    let s1 := { s with state_ := .pConnecting }
    match s1.peer_connection_ with
    | none => ⟨s1, [.state_ .pConnecting], .stopped .null_dereference⟩
    | some _ => ⟨s1, [.state_ .pConnecting, .CreateOffer], .returned ()⟩

/-- The member `CreateAnswer(constraints)`. -/
def CreateAnswer (b : Build) (s : PeerControl) : Outcome Unit :=
  if b.RTC_DCHECK_IS_ON && s.state_ != .pClosed then ⟨s, [], .stopped .dcheck_failed⟩
  else
    let s1 := { s with state_ := .pConnecting }
    match s1.peer_connection_ with
    | none => ⟨s1, [.state_ .pConnecting], .stopped .null_dereference⟩
    | some _ => ⟨s1, [.state_ .pConnecting, .CreateAnswer], .returned ()⟩

/-- The member `SetLocalDescription(type, sdp)`. -/
def SetLocalDescription (type sdp : String) (s : PeerControl) : Outcome Unit :=
  match s.peer_connection_ with
  | none => ⟨s, [], .returned ()⟩
  | some _ => ⟨s, [.SetLocalDescription type sdp], .returned ()⟩

/-- The member `SetRemoteDescription(type, sdp)`. -/
def SetRemoteDescription (type sdp : String) (s : PeerControl) : Outcome Unit :=
  match s.peer_connection_ with
  | none => ⟨s, [], .stopped .null_dereference⟩
  | some _ => ⟨s, [.SetRemoteDescription type sdp], .returned ()⟩

/-- The member `ReceiveOfferSdp(sdp)`. -/
def ReceiveOfferSdp (b : Build) (sdp : String) (s : PeerControl) : Outcome Unit :=
  if b.RTC_DCHECK_IS_ON && s.state_ != .pClosed then ⟨s, [], .stopped .dcheck_failed⟩
  else (SetRemoteDescription kOffer sdp s).andThen fun _ s1 => CreateAnswer b s1

/-- The member `ReceiveAnswerSdp(sdp)`. -/
def ReceiveAnswerSdp (b : Build) (sdp : String) (s : PeerControl) : Outcome Unit :=
  if b.RTC_DCHECK_IS_ON && s.state_ != .pConnecting then ⟨s, [], .stopped .dcheck_failed⟩
  else SetRemoteDescription kAnswer sdp s

/-- The member `OnDataChannel(channel)`. -/
def OnDataChannel (b : Build) (channel : Option DataChannelInterface) (s : PeerControl) :
    Outcome Unit :=
  match PeerDataChannelObserver.construct b channel with
  | .stopped e => ⟨s, [], .stopped e⟩
  | .returned o =>
    let s1 := { s with remote_data_channel_ := some o }
    let s2 := { s1 with remote_data_channel_ := Attach s1.remote_data_channel_ }
    ⟨s2, [], .returned ()⟩

/-- The member `OnSignalingChange(new_state)`: nothing. -/
def OnSignalingChange (s : PeerControl) : Outcome Unit :=
  ⟨s, [], .returned ()⟩

/-- The member `OnPeerDisconnected()`. -/
def OnPeerDisconnected (s : PeerControl) : Outcome Unit :=
  if s.state_ = .pClosed then ⟨s, [], .returned ()⟩
  else if s.state_ = .pClosing then ⟨s, [], .returned ()⟩
  else ⟨s, [.ClosePeer s.remote_id_ .CLOSE_GOING_AWAY FORCE_QUEUING_ON], .returned ()⟩

/-- The member `OnIceConnectionChange(new_state)`. -/
def OnIceConnectionChange (new_state : IceConnectionState) (s : PeerControl) : Outcome Unit :=
  match new_state with
  | .kIceConnectionClosed => OnPeerDisconnected s
  | .kIceConnectionDisconnected => OnPeerDisconnected s
  | .kIceConnectionNew => ⟨s, [], .returned ()⟩
  | .kIceConnectionChecking => ⟨s, [], .returned ()⟩
  | .kIceConnectionConnected => ⟨s, [], .returned ()⟩
  | .kIceConnectionCompleted => ⟨s, [], .returned ()⟩
  | .kIceConnectionFailed => ⟨s, [], .returned ()⟩
  | _ => ⟨s, [], .returned ()⟩

/-- The member `OnIceCandidate(candidate)`. -/
def OnIceCandidate (candidate : IceCandidateInterface) (s : PeerControl) : Outcome Unit :=
  match candidate.ToString with
  | none => ⟨s, [], .returned ()⟩
  | some sdp =>
    ⟨s, [.SendCommand s.remote_id_ "ice_candidate"
          [("sdp_mid", .str candidate.sdp_mid),
           ("sdp_mline_index", .int candidate.sdp_mline_index),
           ("candidate", .str sdp)]], .returned ()⟩

/-- The member `OnSuccess(desc)`. -/
def OnSuccess (desc : SessionDescriptionInterface) (s : PeerControl) : Outcome Unit :=
  match desc.ToString with
  | none => ⟨s, [], .returned ()⟩
  | some sdp =>
    if s.state_ != .pConnecting then ⟨s, [], .returned ()⟩
    else
      (SetLocalDescription desc.type sdp s).andThen fun _ s1 =>
        if desc.type = kOffer then
          ⟨s1, [.SendCommand s1.remote_id_ "offersdp" [("sdp", .str sdp)]], .returned ()⟩
        else if desc.type = kAnswer then
          ⟨s1, [.SendCommand s1.remote_id_ "answersdp" [("sdp", .str sdp)]], .returned ()⟩
        else ⟨s1, [], .returned ()⟩

/-- The member `OnPeerOpened()`.  The condition is evaluated left to right and
stops at the first conjunct that fails. -/
def OnPeerOpened (b : Build) (s : PeerControl) : Outcome Unit :=
  match s.local_data_channel_, s.remote_data_channel_ with
  | some l, some r =>
    match l.state with
    | .stopped e => ⟨s, [], .stopped e⟩
    | .returned ls =>
      if ls != .kOpen then ⟨s, [], .returned ()⟩
      else
        match r.state with
        | .stopped e => ⟨s, [], .stopped e⟩
        | .returned rs =>
          if rs != .kOpen then ⟨s, [], .returned ()⟩
          else if b.RTC_DCHECK_IS_ON && s.state_ != .pConnecting then
            ⟨s, [], .stopped .dcheck_failed⟩
          else
            let s1 := { s with state_ := .pOpen }
            ⟨s1, [.state_ .pOpen, .OnPeerConnect s1.remote_id_, .OnPeerWritable s1.local_id_],
              .returned ()⟩
  | _, _ => ⟨s, [], .returned ()⟩

/-- The member `OnPeerMessage(buffer)`. -/
def OnPeerMessage (buffer : Buffer) (s : PeerControl) : Outcome Unit :=
  ⟨s, [.OnPeerMessage s.remote_id_ buffer], .returned ()⟩

/-- The member `OnBufferedAmountChange(previous_amount)`. -/
def OnBufferedAmountChange (s : PeerControl) : Outcome Unit :=
  match s.local_data_channel_ with
  | none => ⟨s, [], .stopped .null_dereference⟩
  | some l =>
    if !l.IsWritable then ⟨s, [], .returned ()⟩
    else ⟨s, [.OnPeerWritable s.remote_id_], .returned ()⟩

/-- The member `AddIceCandidate(sdp_mid, sdp_mline_index, candidate)`. -/
def AddIceCandidate (sdp_mid : String) (sdp_mline_index : Int) (candidate : String)
    (s : PeerControl) : Outcome Unit :=
  match s.peer_connection_ with
  | none => ⟨s, [], .stopped .null_dereference⟩
  | some _ => ⟨s, [.AddIceCandidate sdp_mid sdp_mline_index candidate], .returned ()⟩

end PeerControl

/-! ## Channel callbacks delivered to a session's adapters -/

/-- The two adapter members of `PeerControl`. -/
inductive Slot where
  | local_data_channel_
  | remote_data_channel_
  deriving DecidableEq, Repr

/-- Read an adapter member. -/
def PeerControl.adapter (w : Slot) (s : PeerControl) : Option PeerDataChannelObserver :=
  match w with
  | .local_data_channel_ => s.local_data_channel_
  | .remote_data_channel_ => s.remote_data_channel_

/-- Write an adapter member. -/
def PeerControl.setAdapter (w : Slot) (o : Option PeerDataChannelObserver) (s : PeerControl) :
    PeerControl :=
  match w with
  | .local_data_channel_ => { s with local_data_channel_ := o }
  | .remote_data_channel_ => { s with remote_data_channel_ := o }

/-- The member `PeerDataChannelObserver::OnStateChange()` of the adapter in slot
`w`; a signal reaches the session when the adapter is attached. -/
def PeerDataChannelObserver.OnStateChange (b : Build) (w : Slot) (s : PeerControl) :
    Outcome Unit :=
  match s.adapter w with
  | none => ⟨s, [], .returned ()⟩
  | some o =>
    match o.state with
    | .stopped e => ⟨s, [], .stopped e⟩
    | .returned st =>
      let o1 := { o with state_ := st }
      let s1 := s.setAdapter w (some o1)
      if o1.state_ = .kOpen then
        if o1.attached_ then PeerControl.OnPeerOpened b s1 else ⟨s1, [], .returned ()⟩
      else if o1.state_ = .kClosed then
        if o1.attached_ then PeerControl.OnPeerDisconnected s1 else ⟨s1, [], .returned ()⟩
      else ⟨s1, [], .returned ()⟩

/-- The member `PeerDataChannelObserver::OnBufferedAmountChange(previous_amount)`
of the adapter in slot `w`. -/
def PeerDataChannelObserver.OnBufferedAmountChange (w : Slot) (s : PeerControl) :
    Outcome Unit :=
  match s.adapter w with
  | none => ⟨s, [], .returned ()⟩
  | some o =>
    (if o.attached_ then PeerControl.OnBufferedAmountChange s
      else ⟨s, [], .returned ()⟩).andThen fun _ s1 =>
      match o.channel_ with
      | none => ⟨s1, [], .stopped .null_dereference⟩
      | some _ => ⟨s1, [], .returned ()⟩

/-- The member `PeerDataChannelObserver::OnMessage(buffer)` of the adapter in
slot `w`. -/
def PeerDataChannelObserver.OnMessage (w : Slot) (buffer : Buffer) (s : PeerControl) :
    Outcome Unit :=
  match s.adapter w with
  | none => ⟨s, [], .returned ()⟩
  | some o =>
    if o.attached_ then PeerControl.OnPeerMessage buffer s else ⟨s, [], .returned ()⟩

/-- The engine moves the channel behind the adapter in slot `w` to `st`. -/
def engineSetsChannelState (w : Slot) (st : DataState) (s : PeerControl) : PeerControl :=
  match s.adapter w with
  | none => s
  | some o =>
    match o.channel_ with
    | none => s
    | some c => s.setAdapter w (some { o with channel_ := some { c with state := st } })

/-- The engine changes the buffered amount of the channel behind the adapter in
slot `w` to `n`. -/
def engineSetsBufferedAmount (w : Slot) (n : Nat) (s : PeerControl) : PeerControl :=
  match s.adapter w with
  | none => s
  | some o =>
    match o.channel_ with
    | none => s
    | some c =>
      s.setAdapter w (some { o with channel_ := some { c with buffered_amount := n } })

/-- The engine changes what the factory and the connectivity handle of the
session will answer to later `CreatePeerConnection` and `CreateDataChannel`
requests; which of the two the session holds is not changed. -/
def engineSetsAnswers (pc : Option PeerConnectionInterface) (dc : Option DataChannelInterface)
    (s : PeerControl) : PeerControl :=
  { s with
    peer_connection_factory_ :=
      match s.peer_connection_factory_ with
      | none => none
      | some _ => some { CreatePeerConnection := pc }
    peer_connection_ :=
      match s.peer_connection_ with
      | none => none
      | some _ => some { CreateDataChannel := dc } }

/-! ## Runs -/

/-- The operations of a session and the callbacks it receives. -/
inductive Op where
  | Initialize
  | Send (buffer : Buffer) (accepts : Bool)
  | SyncSend (buffer : Buffer) (accepts flushed : Bool)
  | IsWritable
  | Close (code : CloseCode)
  | CreateOffer
  | CreateAnswer
  | ReceiveOfferSdp (sdp : String)
  | ReceiveAnswerSdp (sdp : String)
  | AddIceCandidate (sdp_mid : String) (sdp_mline_index : Int) (candidate : String)
  | OnDataChannel (channel : Option DataChannelInterface)
  | OnSignalingChange
  | OnIceConnectionChange (new_state : IceConnectionState)
  | OnIceCandidate (candidate : IceCandidateInterface)
  | OnSuccess (desc : SessionDescriptionInterface)
  | OnPeerOpened
  | OnPeerDisconnected
  | OnPeerMessage (buffer : Buffer)
  | OnBufferedAmountChange
  /-- the channel behind slot `w` changes its own state and notifies its adapter -/
  | ChannelStateChange (w : Slot) (st : DataState)
  /-- the channel behind slot `w` changes its buffered amount and notifies -/
  | ChannelBufferedAmountChange (w : Slot) (n : Nat)
  /-- the channel behind slot `w` delivers a message to its adapter -/
  | ChannelMessage (w : Slot) (buffer : Buffer)
  /-- the engine changes what it will answer to later creation requests -/
  | EngineAnswers (pc : Option PeerConnectionInterface) (dc : Option DataChannelInterface)
  deriving DecidableEq, Repr

/-- One operation or callback on a session. -/
def step (b : Build) (op : Op) (s : PeerControl) : Outcome Unit :=
  match op with
  | .Initialize => (PeerControl.Initialize b s).void
  | .Send buffer accepts => (PeerControl.Send b buffer accepts s).void
  | .SyncSend buffer accepts flushed => (PeerControl.SyncSend b buffer accepts flushed s).void
  | .IsWritable => (PeerControl.IsWritable s).void
  | .Close code => PeerControl.Close code s
  | .CreateOffer => PeerControl.CreateOffer b s
  | .CreateAnswer => PeerControl.CreateAnswer b s
  | .ReceiveOfferSdp sdp => PeerControl.ReceiveOfferSdp b sdp s
  | .ReceiveAnswerSdp sdp => PeerControl.ReceiveAnswerSdp b sdp s
  | .AddIceCandidate mid idx candidate => PeerControl.AddIceCandidate mid idx candidate s
  | .OnDataChannel channel => PeerControl.OnDataChannel b channel s
  | .OnSignalingChange => PeerControl.OnSignalingChange s
  | .OnIceConnectionChange new_state => PeerControl.OnIceConnectionChange new_state s
  | .OnIceCandidate candidate => PeerControl.OnIceCandidate candidate s
  | .OnSuccess desc => PeerControl.OnSuccess desc s
  | .OnPeerOpened => PeerControl.OnPeerOpened b s
  | .OnPeerDisconnected => PeerControl.OnPeerDisconnected s
  | .OnPeerMessage buffer => PeerControl.OnPeerMessage buffer s
  | .OnBufferedAmountChange => PeerControl.OnBufferedAmountChange s
  | .ChannelStateChange w st =>
      PeerDataChannelObserver.OnStateChange b w (engineSetsChannelState w st s)
  | .ChannelBufferedAmountChange w n =>
      PeerDataChannelObserver.OnBufferedAmountChange w (engineSetsBufferedAmount w n s)
  | .ChannelMessage w buffer => PeerDataChannelObserver.OnMessage w buffer s
  | .EngineAnswers pc dc => ⟨engineSetsAnswers pc dc s, [], .returned ()⟩

/-- A sequence of operations and callbacks, stopped by the first fault. -/
def run (b : Build) : List Op → PeerControl → Outcome Unit
  | [], s => ⟨s, [], .returned ()⟩
  | op :: ops, s => (step b op s).andThen fun _ s1 => run b ops s1

/-- The values assigned to `state_`, in order. -/
def assignments : List Event → List PeerState
  | [] => []
  | .state_ v :: es => v :: assignments es
  | _ :: es => assignments es

/-- The successive changes of `state_` a log describes when `state_` starts at
`start`: each assignment of a value different from the current one. -/
def changes (start : PeerState) : List PeerState → List (PeerState × PeerState)
  | [] => []
  | v :: vs => if start = v then changes v vs else (start, v) :: changes v vs

/-! ## class Signal: reconnect configuration (`signalconnection.h`) -/

/-- The reconnect settings of `Signal`.  The members are `unsigned`; the setters
only assign and compare them, so no arithmetic can wrap. -/
structure Signal where
  reconn_delay_ : Nat
  reconn_delay_max_ : Nat
  reconn_attempts_ : Nat
  deriving DecidableEq, Repr

namespace Signal

/-- The member `set_reconnect_attempts(attempts)`. -/
def set_reconnect_attempts (attempts : Nat) (g : Signal) : Signal :=
  { g with reconn_attempts_ := attempts }

/-- The member `set_reconnect_delay(millis)`. -/
def set_reconnect_delay (millis : Nat) (g : Signal) : Signal :=
  let g1 := { g with reconn_delay_ := millis }
  if g1.reconn_delay_max_ < millis then { g1 with reconn_delay_max_ := millis } else g1

/-- The member `set_reconnect_delay_max(millis)`. -/
def set_reconnect_delay_max (millis : Nat) (g : Signal) : Signal :=
  let g1 := { g with reconn_delay_max_ := millis }
  if g1.reconn_delay_ > millis then { g1 with reconn_delay_ := millis } else g1

end Signal

/-! ## Predicates used in the statements -/

/-- Both adapters exist and both report the channel state open (`state()`
returns `kOpen`). -/
def BothReportOpen (s : PeerControl) : Prop :=
  ∃ l r, s.local_data_channel_ = some l ∧ s.remote_data_channel_ = some r ∧
    l.state = .returned .kOpen ∧ r.state = .returned .kOpen

/-- The state changes the spec's state order allows. -/
def SpecOrder (p : PeerState × PeerState) : Prop :=
  p = (.pClosed, .pConnecting) ∨ p = (.pConnecting, .pOpen) ∨
    p = (.pOpen, .pClosing) ∨ p = (.pClosing, .pClosed)

/-- The state changes of the spec's state order, and closing while connecting. -/
def CodeOrder (p : PeerState × PeerState) : Prop :=
  SpecOrder p ∨ p = (.pConnecting, .pClosing)

instance : DecidablePred SpecOrder := fun p => by
  unfold SpecOrder
  infer_instance

instance : DecidablePred CodeOrder := fun p => by
  unfold CodeOrder
  infer_instance

/-- The value `state_` holds after the assignments `vs`, starting from `start`. -/
def lastAssigned (start : PeerState) (vs : List PeerState) : PeerState :=
  vs.foldl (fun _ v => v) start

/-! ## What a call does to `state_` -/

/-- A call that assigns nothing to `state_`. -/
def Quiet {α : Type} (s : PeerControl) (o : Outcome α) : Prop :=
  assignments o.log = [] ∧ o.self.state_ = s.state_

/-- A call whose only assignment to `state_` is `pConnecting`. -/
def Connects {α : Type} (b : Build) (s : PeerControl) (o : Outcome α) : Prop :=
  assignments o.log = [.pConnecting] ∧ o.self.state_ = .pConnecting ∧
    (b.RTC_DCHECK_IS_ON = true → s.state_ = .pClosed)

/-- A call whose only assignment to `state_` is `pOpen`; it returns, and leaves
both adapters reporting open. -/
def Opens {α : Type} (b : Build) (s : PeerControl) (o : Outcome α) : Prop :=
  assignments o.log = [.pOpen] ∧ o.self.state_ = .pOpen ∧
    (b.RTC_DCHECK_IS_ON = true → s.state_ = .pConnecting) ∧ BothReportOpen o.self ∧
    ∃ a, o.ret = .returned a

/-- A call that assigns `pClosing` and then `pClosed`. -/
def Closes {α : Type} (s : PeerControl) (o : Outcome α) : Prop :=
  assignments o.log = [.pClosing, .pClosed] ∧ o.self.state_ = .pClosed ∧
    s.state_ ≠ .pClosing ∧ s.state_ ≠ .pClosed

/-! ## Sample sessions -/

/-- A channel the engine has just created. -/
def sampleChannel : DataChannelInterface :=
  { state := .kConnecting, buffered_amount := 0 }

/-- A factory whose engine creates a handle and a data channel. -/
def sampleFactory : PeerConnectionFactoryInterface :=
  { CreatePeerConnection := some { CreateDataChannel := some sampleChannel } }

/-- A freshly constructed session between "alice" and "bob". -/
def sampleFresh : PeerControl :=
  PeerControl.construct "alice" "bob" (some sampleFactory)

/-- A build with `RTC_DCHECK` compiled out. -/
def releaseBuild : Build := { RTC_DCHECK_IS_ON := false, max_buffer_size_ := 1024 }

/-- A build with `RTC_DCHECK` active. -/
def strictBuild : Build := { RTC_DCHECK_IS_ON := true, max_buffer_size_ := 1024 }

/-- The operations that bring a fresh session to `Open`: initialise, offer, the
remote channel arrives, both channels open. -/
def sampleOpening : List Op :=
  [.Initialize, .CreateOffer, .OnDataChannel (some sampleChannel),
   .ChannelStateChange .local_data_channel_ .kOpen,
   .ChannelStateChange .remote_data_channel_ .kOpen]

/-- The session `sampleOpening` leads to. -/
def sampleOpen : PeerControl := (run strictBuild sampleOpening sampleFresh).self

/-- A session is closed while it waits for the remote channel to open: initialise,
offer, the remote channel arrives, the local channel opens, `Close`. -/
def sampleClosing : List Op :=
  [.Initialize, .CreateOffer, .OnDataChannel (some sampleChannel),
   .ChannelStateChange .local_data_channel_ .kOpen, .Close .CLOSE_NORMAL]

/-- The session `sampleClosing` leads to, at the moment its remote channel has
opened after all: state `Closed`, both channels open. -/
def sampleClosedLate : PeerControl :=
  engineSetsChannelState .remote_data_channel_ .kOpen
    (run strictBuild sampleClosing sampleFresh).self

/-- A connecting session at the moment its second channel has opened: initialise,
offer, the remote channel arrives, the local channel opens, and the engine has
just moved the remote channel to open.  State `Connecting`, both channels open. -/
def sampleConnecting : PeerControl :=
  engineSetsChannelState .remote_data_channel_ .kOpen
    (run strictBuild
      [.Initialize, .CreateOffer, .OnDataChannel (some sampleChannel),
       .ChannelStateChange .local_data_channel_ .kOpen] sampleFresh).self

end peerapi


namespace peerapi

/-! ## Helper lemmas -/

theorem state_returned_iff (o : PeerDataChannelObserver) (d : DataState) :
    o.state = .returned d ↔ ∃ c, o.channel_ = some c ∧ c.state = d := by
  unfold PeerDataChannelObserver.state
  cases h : o.channel_ <;> simp

theorem assignments_append (xs ys : List Event) :
    assignments (xs ++ ys) = assignments xs ++ assignments ys := by
  induction xs with
  | nil => rfl
  | cons e es ih => cases e <;> simp [assignments, ih]

theorem mem_assignments (v : PeerState) (xs : List Event) :
    v ∈ assignments xs ↔ Event.state_ v ∈ xs := by
  induction xs with
  | nil => simp [assignments]
  | cons e es ih => cases e <;> simp [assignments, ih]

theorem Quiet.andThen {α β : Type} {s : PeerControl} {o : Outcome α}
    {f : α → PeerControl → Outcome β} (h1 : Quiet s o)
    (h2 : ∀ a, Quiet o.self (f a o.self)) : Quiet s (o.andThen f) := by
  unfold Outcome.andThen
  cases hr : o.ret with
  | stopped e => exact h1
  | returned a =>
    obtain ⟨h2a, h2b⟩ := h2 a
    exact ⟨by simp [assignments_append, h1.1, h2a], by simp [h2b, h1.2]⟩

theorem Quiet.void {α : Type} {s : PeerControl} {o : Outcome α} (h : Quiet s o) :
    Quiet s o.void := h

theorem quiet_DeletePeerConnection (s : PeerControl) :
    Quiet s (PeerControl.DeletePeerConnection s) := by
  simp [Quiet, PeerControl.DeletePeerConnection, assignments]

theorem quiet_CreatePeerConnection (b : Build) (s : PeerControl) :
    Quiet s (PeerControl.CreatePeerConnection b s) := by
  unfold PeerControl.CreatePeerConnection Quiet
  split
  · simp [assignments]
  · split
    · simp [assignments]
    · split
      · simp [assignments]
      · dsimp only
        split <;> simp [assignments]

theorem quiet_CreateDataChannel (b : Build) (label : String) (s : PeerControl) :
    Quiet s (PeerControl.CreateDataChannel b label s) := by
  unfold PeerControl.CreateDataChannel Quiet
  split
  · simp [assignments]
  · split
    · simp [assignments]
    · simp [PeerDataChannelObserver.construct, assignments]

theorem quiet_Initialize (b : Build) (s : PeerControl) :
    Quiet s (PeerControl.Initialize b s) := by
  unfold PeerControl.Initialize
  refine Quiet.andThen (quiet_CreatePeerConnection b s) ?_
  intro created
  split
  · refine Quiet.andThen (quiet_DeletePeerConnection _) ?_
    intro _
    simp [Quiet, assignments]
  · refine Quiet.andThen (quiet_CreateDataChannel b _ _) ?_
    intro opened
    split
    · refine Quiet.andThen (quiet_DeletePeerConnection _) ?_
      intro _
      simp [Quiet, assignments]
    · simp [Quiet, assignments]

theorem assignments_adapter_Send (l : PeerDataChannelObserver) (buffer : Buffer)
    (accepts : Bool) : assignments (l.Send buffer accepts).2 = [] := by
  unfold PeerDataChannelObserver.Send
  split
  · rfl
  · split <;> rfl

theorem assignments_adapter_SyncSend (l : PeerDataChannelObserver) (buffer : Buffer)
    (accepts flushed : Bool) : assignments (l.SyncSend buffer accepts flushed).2 = [] := by
  unfold PeerDataChannelObserver.SyncSend
  split
  · rfl
  · split
    · rfl
    · split <;> rfl

theorem quiet_Send (b : Build) (buffer : Buffer) (accepts : Bool) (s : PeerControl) :
    Quiet s (PeerControl.Send b buffer accepts s) := by
  unfold PeerControl.Send Quiet
  split
  · simp [assignments]
  · split
    · simp [assignments]
    · split
      · simp [assignments]
      · simp [assignments_adapter_Send]

theorem quiet_SyncSend (b : Build) (buffer : Buffer) (accepts flushed : Bool)
    (s : PeerControl) : Quiet s (PeerControl.SyncSend b buffer accepts flushed s) := by
  unfold PeerControl.SyncSend Quiet
  split
  · simp [assignments]
  · split
    · simp [assignments]
    · split
      · simp [assignments]
      · simp [assignments_adapter_SyncSend]

theorem quiet_IsWritable (s : PeerControl) : Quiet s (PeerControl.IsWritable s) := by
  unfold PeerControl.IsWritable Quiet
  split
  · simp [assignments]
  · split <;> simp [assignments]

theorem quiet_SetLocalDescription (type sdp : String) (s : PeerControl) :
    Quiet s (PeerControl.SetLocalDescription type sdp s) := by
  unfold PeerControl.SetLocalDescription Quiet
  split <;> simp [assignments]

theorem quiet_SetRemoteDescription (type sdp : String) (s : PeerControl) :
    Quiet s (PeerControl.SetRemoteDescription type sdp s) := by
  unfold PeerControl.SetRemoteDescription Quiet
  split <;> simp [assignments]

theorem quiet_ReceiveAnswerSdp (b : Build) (sdp : String) (s : PeerControl) :
    Quiet s (PeerControl.ReceiveAnswerSdp b sdp s) := by
  unfold PeerControl.ReceiveAnswerSdp
  split
  · simp [Quiet, assignments]
  · exact quiet_SetRemoteDescription _ _ s

theorem quiet_OnDataChannel (b : Build) (channel : Option DataChannelInterface)
    (s : PeerControl) : Quiet s (PeerControl.OnDataChannel b channel s) := by
  unfold PeerControl.OnDataChannel Quiet
  split <;> simp [assignments]

theorem quiet_OnPeerDisconnected (s : PeerControl) :
    Quiet s (PeerControl.OnPeerDisconnected s) := by
  unfold PeerControl.OnPeerDisconnected Quiet
  split
  · simp [assignments]
  · split <;> simp [assignments]

theorem quiet_OnIceConnectionChange (new_state : IceConnectionState) (s : PeerControl) :
    Quiet s (PeerControl.OnIceConnectionChange new_state s) := by
  cases new_state <;>
    first
      | exact quiet_OnPeerDisconnected s
      | simp [PeerControl.OnIceConnectionChange, Quiet, assignments]

theorem quiet_OnIceCandidate (candidate : IceCandidateInterface) (s : PeerControl) :
    Quiet s (PeerControl.OnIceCandidate candidate s) := by
  unfold PeerControl.OnIceCandidate Quiet
  split <;> simp [assignments]

theorem quiet_OnSuccess (desc : SessionDescriptionInterface) (s : PeerControl) :
    Quiet s (PeerControl.OnSuccess desc s) := by
  unfold PeerControl.OnSuccess
  split
  · simp [Quiet, assignments]
  · split
    · simp [Quiet, assignments]
    · refine Quiet.andThen (quiet_SetLocalDescription _ _ s) ?_
      intro _
      split
      · simp [Quiet, assignments]
      · split <;> simp [Quiet, assignments]

theorem quiet_OnPeerMessage (buffer : Buffer) (s : PeerControl) :
    Quiet s (PeerControl.OnPeerMessage buffer s) := by
  simp [PeerControl.OnPeerMessage, Quiet, assignments]

theorem quiet_OnBufferedAmountChange (s : PeerControl) :
    Quiet s (PeerControl.OnBufferedAmountChange s) := by
  unfold PeerControl.OnBufferedAmountChange Quiet
  split
  · simp [assignments]
  · split <;> simp [assignments]

theorem quiet_AddIceCandidate (sdp_mid : String) (sdp_mline_index : Int) (candidate : String)
    (s : PeerControl) :
    Quiet s (PeerControl.AddIceCandidate sdp_mid sdp_mline_index candidate s) := by
  unfold PeerControl.AddIceCandidate Quiet
  split <;> simp [assignments]

theorem engineSetsChannelState_state_ (w : Slot) (st : DataState) (s : PeerControl) :
    (engineSetsChannelState w st s).state_ = s.state_ := by
  unfold engineSetsChannelState
  split
  · rfl
  · split
    · rfl
    · cases w <;> rfl

theorem engineSetsBufferedAmount_state_ (w : Slot) (n : Nat) (s : PeerControl) :
    (engineSetsBufferedAmount w n s).state_ = s.state_ := by
  unfold engineSetsBufferedAmount
  split
  · rfl
  · split
    · rfl
    · cases w <;> rfl

theorem setAdapter_state_ (w : Slot) (o : Option PeerDataChannelObserver) (s : PeerControl) :
    (s.setAdapter w o).state_ = s.state_ := by
  cases w <;> rfl

theorem quiet_adapter_OnBufferedAmountChange (w : Slot) (s : PeerControl) :
    Quiet s (PeerDataChannelObserver.OnBufferedAmountChange w s) := by
  unfold PeerDataChannelObserver.OnBufferedAmountChange
  split
  · simp [Quiet, assignments]
  · rename_i o _
    refine Quiet.andThen ?_ ?_
    · split
      · exact quiet_OnBufferedAmountChange s
      · simp [Quiet, assignments]
    · intro _
      cases o.channel_ <;> simp [Quiet, assignments]

theorem quiet_adapter_OnMessage (w : Slot) (buffer : Buffer) (s : PeerControl) :
    Quiet s (PeerDataChannelObserver.OnMessage w buffer s) := by
  unfold PeerDataChannelObserver.OnMessage
  split
  · simp [Quiet, assignments]
  · split
    · exact quiet_OnPeerMessage buffer s
    · simp [Quiet, assignments]

theorem OnPeerOpened_of_both (b : Build) (s : PeerControl)
    (h : b.RTC_DCHECK_IS_ON = false ∨ s.state_ = .pConnecting) (hb : BothReportOpen s) :
    PeerControl.OnPeerOpened b s =
      ⟨{ s with state_ := .pOpen },
        [.state_ .pOpen, .OnPeerConnect s.remote_id_, .OnPeerWritable s.local_id_],
        .returned ()⟩ := by
  obtain ⟨l, r, hl, hr, hls, hrs⟩ := hb
  unfold PeerControl.OnPeerOpened
  rcases h with h | h <;> simp [hl, hr, hls, hrs, h]

theorem OnPeerOpened_of_not (b : Build) (s : PeerControl) (hb : ¬ BothReportOpen s) :
    (PeerControl.OnPeerOpened b s).self = s ∧ (PeerControl.OnPeerOpened b s).log = [] := by
  unfold PeerControl.OnPeerOpened
  split
  · rename_i l r hl hr
    split
    · simp
    · rename_i ls hls
      split
      · simp
      · rename_i hlo
        split
        · simp
        · rename_i rs hrs
          split
          · simp
          · rename_i hro
            exfalso
            apply hb
            refine ⟨l, r, hl, hr, ?_, ?_⟩
            · simpa [hls] using hlo
            · simpa [hrs] using hro
  · simp

theorem CreateOffer_kind (b : Build) (s : PeerControl) :
    Quiet s (PeerControl.CreateOffer b s) ∨ Connects b s (PeerControl.CreateOffer b s) := by
  unfold PeerControl.CreateOffer
  split
  · left; simp [Quiet, assignments]
  · rename_i hd
    right
    have hs : b.RTC_DCHECK_IS_ON = true → s.state_ = .pClosed := by
      intro hb
      simpa [hb] using hd
    dsimp only
    split <;> exact ⟨by simp [assignments], rfl, hs⟩

theorem CreateAnswer_kind (b : Build) (s : PeerControl) :
    Quiet s (PeerControl.CreateAnswer b s) ∨ Connects b s (PeerControl.CreateAnswer b s) := by
  unfold PeerControl.CreateAnswer
  split
  · left; simp [Quiet, assignments]
  · rename_i hd
    right
    have hs : b.RTC_DCHECK_IS_ON = true → s.state_ = .pClosed := by
      intro hb
      simpa [hb] using hd
    dsimp only
    split <;> exact ⟨by simp [assignments], rfl, hs⟩

theorem ReceiveOfferSdp_kind (b : Build) (sdp : String) (s : PeerControl) :
    Quiet s (PeerControl.ReceiveOfferSdp b sdp s) ∨
      Connects b s (PeerControl.ReceiveOfferSdp b sdp s) := by
  unfold PeerControl.ReceiveOfferSdp
  split
  · left; simp [Quiet, assignments]
  · have hq := quiet_SetRemoteDescription kOffer sdp s
    unfold Outcome.andThen
    cases hr : (PeerControl.SetRemoteDescription kOffer sdp s).ret with
    | stopped e => left; exact hq
    | returned a =>
      rcases CreateAnswer_kind b (PeerControl.SetRemoteDescription kOffer sdp s).self with h | h
      · left
        exact ⟨by simp [assignments_append, hq.1, h.1], by simp [h.2, hq.2]⟩
      · right
        refine ⟨by simp [assignments_append, hq.1, h.1], h.2.1, ?_⟩
        intro hb
        rw [← hq.2]
        exact h.2.2 hb

theorem Close_kind (code : CloseCode) (s : PeerControl) :
    Quiet s (PeerControl.Close code s) ∨ Closes s (PeerControl.Close code s) := by
  unfold PeerControl.Close
  split
  · left; simp [Quiet, assignments]
  · rename_i hn
    right
    exact ⟨by simp [assignments], rfl, fun h => hn (Or.inl h), fun h => hn (Or.inr h)⟩

theorem OnPeerOpened_kind (b : Build) (s : PeerControl) :
    Quiet s (PeerControl.OnPeerOpened b s) ∨ Opens b s (PeerControl.OnPeerOpened b s) := by
  by_cases hb : BothReportOpen s
  · by_cases hd : b.RTC_DCHECK_IS_ON = false ∨ s.state_ = .pConnecting
    · right
      rw [OnPeerOpened_of_both b s hd hb]
      refine ⟨by simp [assignments], rfl, ?_, hb, (), rfl⟩
      intro hon
      rcases hd with hd | hd
      · simp [hon] at hd
      · exact hd
    · left
      obtain ⟨l, r, hl, hr, hls, hrs⟩ := hb
      have h1 : b.RTC_DCHECK_IS_ON = true := by
        cases hq : b.RTC_DCHECK_IS_ON
        · exact absurd (Or.inl hq) hd
        · rfl
      have h2 : s.state_ ≠ .pConnecting := fun hq => hd (Or.inr hq)
      unfold PeerControl.OnPeerOpened
      simp [hl, hr, hls, hrs, h1, h2, Quiet, assignments]
  · left
    obtain ⟨h1, h2⟩ := OnPeerOpened_of_not b s hb
    exact ⟨by rw [h2]; rfl, by rw [h1]⟩

theorem adapter_OnStateChange_kind (b : Build) (w : Slot) (s : PeerControl) :
    Quiet s (PeerDataChannelObserver.OnStateChange b w s) ∨
      Opens b s (PeerDataChannelObserver.OnStateChange b w s) := by
  unfold PeerDataChannelObserver.OnStateChange
  split
  · left; simp [Quiet, assignments]
  · rename_i o ho
    split
    · left; simp [Quiet, assignments]
    · rename_i st hst
      dsimp only
      split
      · split
        · rcases OnPeerOpened_kind b (s.setAdapter w (some { o with state_ := st })) with h | h
          · left
            exact ⟨h.1, by rw [h.2, setAdapter_state_]⟩
          · right
            refine ⟨h.1, h.2.1, ?_, h.2.2.2⟩
            intro hb
            rw [← setAdapter_state_ w (some { o with state_ := st }) s]
            exact h.2.2.1 hb
        · left; exact ⟨rfl, setAdapter_state_ _ _ _⟩
      · split
        · split
          · left
            have h := quiet_OnPeerDisconnected (s.setAdapter w (some { o with state_ := st }))
            exact ⟨h.1, by rw [h.2, setAdapter_state_]⟩
          · left; exact ⟨rfl, setAdapter_state_ _ _ _⟩
        · left; exact ⟨rfl, setAdapter_state_ _ _ _⟩

/-- What a step does to `state_`: nothing, or one of three patterns, each tied to
the operations that can produce it. -/
theorem step_kind (b : Build) (op : Op) (s : PeerControl) :
    Quiet s (step b op s) ∨
    (Connects b s (step b op s) ∧
      (op = .CreateOffer ∨ op = .CreateAnswer ∨ ∃ sdp, op = .ReceiveOfferSdp sdp)) ∨
    (Opens b s (step b op s) ∧ (op = .OnPeerOpened ∨ ∃ w st, op = .ChannelStateChange w st)) ∨
    (Closes s (step b op s) ∧ ∃ code, op = .Close code) := by
  cases op with
  | Initialize => left; exact (quiet_Initialize b s).void
  | Send buffer accepts => left; exact (quiet_Send b buffer accepts s).void
  | SyncSend buffer accepts flushed => left; exact (quiet_SyncSend b buffer accepts flushed s).void
  | IsWritable => left; exact (quiet_IsWritable s).void
  | Close code =>
    rcases Close_kind code s with h | h
    · left; exact h
    · right; right; right; exact ⟨h, code, rfl⟩
  | CreateOffer =>
    rcases CreateOffer_kind b s with h | h
    · left; exact h
    · right; left; exact ⟨h, Or.inl rfl⟩
  | CreateAnswer =>
    rcases CreateAnswer_kind b s with h | h
    · left; exact h
    · right; left; exact ⟨h, Or.inr (Or.inl rfl)⟩
  | ReceiveOfferSdp sdp =>
    rcases ReceiveOfferSdp_kind b sdp s with h | h
    · left; exact h
    · right; left; exact ⟨h, Or.inr (Or.inr ⟨sdp, rfl⟩)⟩
  | ReceiveAnswerSdp sdp => left; exact quiet_ReceiveAnswerSdp b sdp s
  | AddIceCandidate mid idx candidate => left; exact quiet_AddIceCandidate mid idx candidate s
  | OnDataChannel channel => left; exact quiet_OnDataChannel b channel s
  | OnSignalingChange => left; exact ⟨rfl, rfl⟩
  | OnIceConnectionChange new_state => left; exact quiet_OnIceConnectionChange new_state s
  | OnIceCandidate candidate => left; exact quiet_OnIceCandidate candidate s
  | OnSuccess desc => left; exact quiet_OnSuccess desc s
  | OnPeerOpened =>
    rcases OnPeerOpened_kind b s with h | h
    · left; exact h
    · right; right; left; exact ⟨h, Or.inl rfl⟩
  | OnPeerDisconnected => left; exact quiet_OnPeerDisconnected s
  | OnPeerMessage buffer => left; exact quiet_OnPeerMessage buffer s
  | OnBufferedAmountChange => left; exact quiet_OnBufferedAmountChange s
  | ChannelStateChange w st =>
    rcases adapter_OnStateChange_kind b w (engineSetsChannelState w st s) with h | h
    · left
      exact ⟨h.1, h.2.trans (engineSetsChannelState_state_ w st s)⟩
    · right; right; left
      refine ⟨⟨h.1, h.2.1, ?_, h.2.2.2⟩, Or.inr ⟨w, st, rfl⟩⟩
      intro hb
      rw [← engineSetsChannelState_state_ w st s]
      exact h.2.2.1 hb
  | ChannelBufferedAmountChange w n =>
    left
    have h := quiet_adapter_OnBufferedAmountChange w (engineSetsBufferedAmount w n s)
    exact ⟨h.1, h.2.trans (engineSetsBufferedAmount_state_ w n s)⟩
  | ChannelMessage w buffer => left; exact quiet_adapter_OnMessage w buffer s
  | EngineAnswers pc dc => left; exact ⟨rfl, rfl⟩

/-! ## Open transition rule (C1) -/

/-- C1, the claim as stated fails in a build with `RTC_DCHECK` active.  A session
is closed while it waits for its remote channel, and the channel opens after
all: the state is `Closed`, both adapters exist and report open, and
`OnPeerOpened` does not set the state to `Open`; the assertion
`state_ == pConnecting` stops the call. -/
theorem C1_counterexample :
    (run strictBuild sampleClosing sampleFresh).ret = .returned () ∧
    sampleClosedLate.state_ = .pClosed ∧
    BothReportOpen sampleClosedLate ∧
    (PeerControl.OnPeerOpened strictBuild sampleClosedLate).self.state_ ≠ .pOpen ∧
    (PeerControl.OnPeerOpened strictBuild sampleClosedLate).log = [] ∧
    (PeerControl.OnPeerOpened strictBuild sampleClosedLate).ret
      = .stopped .dcheck_failed := by
  refine ⟨by decide, by decide, ⟨_, _, rfl, rfl, rfl, rfl⟩, by decide, by decide, by decide⟩

/-- C1, amended: for a session in state `Connecting`, in every build,
`OnPeerOpened` sets the state to `Open` if and only if both adapters exist and
both report open, and when they do it sends `OnPeerConnect(remote_id)` followed
by `OnPeerWritable(local_id)` and nothing else.  For every session state and
every build, `OnPeerOpened` assigns `Open` only if both adapters exist and both
report open, and when they do not, the session is unchanged and nothing is sent.
No other operation of `PeerControl` assigns `Open`, in any build and any state.
What `OnPeerOpened` does outside `Connecting` when both adapters report open is
not part of the statement. -/
theorem C1_open_transition_rule (b : Build) (s : PeerControl) :
    (s.state_ = .pConnecting →
      (Event.state_ .pOpen ∈ (PeerControl.OnPeerOpened b s).log ↔ BothReportOpen s)) ∧
    (s.state_ = .pConnecting → BothReportOpen s →
      PeerControl.OnPeerOpened b s =
        ⟨{ s with state_ := .pOpen },
          [.state_ .pOpen, .OnPeerConnect s.remote_id_, .OnPeerWritable s.local_id_],
          .returned ()⟩) ∧
    (Event.state_ .pOpen ∈ (PeerControl.OnPeerOpened b s).log → BothReportOpen s) ∧
    (¬ BothReportOpen s →
      (PeerControl.OnPeerOpened b s).self = s ∧ (PeerControl.OnPeerOpened b s).log = []) ∧
    (∀ (b1 : Build) (s1 : PeerControl) (op : Op), op ≠ .OnPeerOpened →
      (∀ w st, op ≠ .ChannelStateChange w st) →
      Event.state_ .pOpen ∉ (step b1 op s1).log) := by
  have honly : Event.state_ .pOpen ∈ (PeerControl.OnPeerOpened b s).log →
      BothReportOpen s := by
    intro hm
    by_contra hb
    rw [(OnPeerOpened_of_not b s hb).2] at hm
    simp at hm
  refine ⟨?_, fun hc => OnPeerOpened_of_both b s (Or.inr hc), honly,
    OnPeerOpened_of_not b s, ?_⟩
  · intro hc
    constructor
    · exact honly
    · intro hb
      rw [OnPeerOpened_of_both b s (Or.inr hc) hb]
      simp
  · intro b1 s1 op hop hch hm
    rw [← mem_assignments] at hm
    rcases step_kind b1 op s1 with hk | ⟨hk, _⟩ | ⟨_, hk⟩ | ⟨hk, _⟩
    · rw [hk.1] at hm
      simp at hm
    · rw [hk.1] at hm
      simp at hm
    · rcases hk with hk | ⟨w, st, hk⟩
      · exact hop hk
      · exact hch w st hk
    · rw [hk.1] at hm
      simp at hm

/-- C1, the amended rule at concrete inputs, in a build with `RTC_DCHECK`
active: the connecting session whose two channels report open becomes `Open`
and sends the two notifications; the fresh session, which has no adapters, is
left unchanged and sends nothing. -/
theorem C1_open_transition_rule_witness :
    sampleConnecting.state_ = .pConnecting ∧
    BothReportOpen sampleConnecting ∧
    PeerControl.OnPeerOpened strictBuild sampleConnecting =
      ⟨{ sampleConnecting with state_ := .pOpen },
        [.state_ .pOpen, .OnPeerConnect "bob", .OnPeerWritable "alice"],
        .returned ()⟩ ∧
    ¬ BothReportOpen sampleFresh ∧
    (PeerControl.OnPeerOpened strictBuild sampleFresh).self = sampleFresh ∧
    (PeerControl.OnPeerOpened strictBuild sampleFresh).log = [] :=
  have hfresh : ¬ BothReportOpen sampleFresh := fun ⟨_, _, hl, _⟩ => by cases hl
  ⟨by decide, ⟨_, _, rfl, rfl, rfl, rfl⟩,
    (C1_open_transition_rule strictBuild sampleConnecting).2.1 (by decide)
      ⟨_, _, rfl, rfl, rfl, rfl⟩,
    hfresh,
    ((C1_open_transition_rule strictBuild sampleFresh).2.2.2.1 hfresh).1,
    ((C1_open_transition_rule strictBuild sampleFresh).2.2.2.1 hfresh).2⟩

/-! ## Close is idempotent (C3) -/

/-- C3: for a session in state `Connecting` or `Open`, `Close(c1)` leaves the
session `Closed` with the connectivity handle released and everything else as it
was; `Close(c1)` followed by `Close(c2)` leaves exactly that session, returns,
and the control layer receives exactly one notification, `OnPeerClose(remote_id,
c1)`.  A `Close` call on a session that is `Closing` or `Closed` changes nothing
and sends nothing. -/
theorem C3_Close_idempotent (s : PeerControl) (c1 c2 : CloseCode) :
    (s.state_ = .pConnecting ∨ s.state_ = .pOpen →
      (PeerControl.Close c1 s).self = { s with state_ := .pClosed, peer_connection_ := none } ∧
      ((PeerControl.Close c1 s).andThen fun _ s1 => PeerControl.Close c2 s1).self =
        (PeerControl.Close c1 s).self ∧
      ((PeerControl.Close c1 s).andThen fun _ s1 => PeerControl.Close c2 s1).ret =
        .returned () ∧
      (((PeerControl.Close c1 s).andThen fun _ s1 => PeerControl.Close c2 s1).log.filter
          Event.isControlCall) = [.OnPeerClose s.remote_id_ c1]) ∧
    (s.state_ = .pClosing ∨ s.state_ = .pClosed →
      PeerControl.Close c1 s = ⟨s, [], .returned ()⟩) := by
  constructor
  · intro h
    have hn : ¬ (s.state_ = .pClosing ∨ s.state_ = .pClosed) := by
      rcases h with h | h <;> simp [h]
    have h1 : PeerControl.Close c1 s =
        ⟨{ s with state_ := .pClosed, peer_connection_ := none },
          [.state_ .pClosing, .state_ .pClosed, .OnPeerClose s.remote_id_ c1],
          .returned ()⟩ := by
      unfold PeerControl.Close
      rw [if_neg hn]
      cases hp : s.peer_connection_ <;> simp [hp]
    have h2 : ∀ t : PeerControl, t.state_ = .pClosed →
        PeerControl.Close c2 t = ⟨t, [], .returned ()⟩ := by
      intro t ht
      unfold PeerControl.Close
      rw [if_pos (Or.inr ht)]
    rw [h1]
    refine ⟨rfl, ?_, ?_, ?_⟩ <;>
      simp [Outcome.andThen, h2, Event.isControlCall]
  · intro h
    unfold PeerControl.Close
    rw [if_pos h]

/-- C3 at concrete inputs: an open session closed twice, and a closed session
closed again. -/
theorem C3_Close_idempotent_witness :
    ((((PeerControl.Close .CLOSE_NORMAL sampleOpen).andThen fun _ s1 =>
        PeerControl.Close .CLOSE_GOING_AWAY s1).log.filter Event.isControlCall) =
      [.OnPeerClose sampleOpen.remote_id_ .CLOSE_NORMAL]) ∧
    PeerControl.Close .CLOSE_NORMAL sampleFresh = ⟨sampleFresh, [], .returned ()⟩ :=
  ⟨((C3_Close_idempotent sampleOpen .CLOSE_NORMAL .CLOSE_GOING_AWAY).1
      (Or.inr (by decide))).2.2.2,
    (C3_Close_idempotent sampleFresh .CLOSE_NORMAL .CLOSE_NORMAL).2 (Or.inr (by decide))⟩

/-! ## Abnormal disconnect (C4) -/

/-- C4: `OnIceConnectionChange(s)` sends something to the control layer if and
only if `s` is `kIceConnectionClosed` or `kIceConnectionDisconnected` and the
session state is neither `Closing` nor `Closed`; what it then sends is exactly
one request, `ClosePeer(remote_id, CLOSE_GOING_AWAY, FORCE_QUEUING_ON)`;
otherwise (in particular in state `Closing` or `Closed`) nothing is sent.  The
session is never changed. -/
theorem C4_abnormal_disconnect (s : PeerControl) (new_state : IceConnectionState) :
    ((∃ e ∈ (PeerControl.OnIceConnectionChange new_state s).log, e.isControlCall = true) ↔
      ((new_state = .kIceConnectionClosed ∨ new_state = .kIceConnectionDisconnected) ∧
        s.state_ ≠ .pClosing ∧ s.state_ ≠ .pClosed)) ∧
    PeerControl.OnIceConnectionChange new_state s =
      (if (new_state = .kIceConnectionClosed ∨ new_state = .kIceConnectionDisconnected) ∧
          s.state_ ≠ .pClosing ∧ s.state_ ≠ .pClosed then
        ⟨s, [.ClosePeer s.remote_id_ .CLOSE_GOING_AWAY FORCE_QUEUING_ON], .returned ()⟩
      else ⟨s, [], .returned ()⟩) := by
  cases new_state <;> cases hs : s.state_ <;>
    simp [PeerControl.OnIceConnectionChange, PeerControl.OnPeerDisconnected, hs,
      Event.isControlCall]

/-! ## Backpressure (C5) -/

/-- C5: on an adapter whose channel has a buffered amount at or above
`max_buffer_size_`, `Send` returns false and calls nothing on the channel; below
the mark it makes exactly one `Send` call on the channel, with the buffer, and
returns what that call answers. -/
theorem C5_Send_backpressure (o : PeerDataChannelObserver) (c : DataChannelInterface)
    (buffer : Buffer) (accepts : Bool) (hc : o.channel_ = some c) :
    (c.buffered_amount ≥ o.max_buffer_size_ →
      o.Send buffer accepts = (.returned false, [])) ∧
    (c.buffered_amount < o.max_buffer_size_ →
      o.Send buffer accepts = (.returned accepts, [.ChannelSend buffer])) := by
  unfold PeerDataChannelObserver.Send
  rw [hc]
  constructor
  · intro h
    simp [h]
  · intro h
    simp [Nat.not_le.mpr h]

/-- C5 at a concrete adapter: mark 1024, once with 1024 bytes buffered and once
with 1023. -/
theorem C5_Send_backpressure_witness :
    (({ channel_ := some ⟨.kOpen, 1024⟩, state_ := .kOpen, max_buffer_size_ := 1024,
        attached_ := true } : PeerDataChannelObserver).Send [1, 2, 3] true
      = (.returned false, [])) ∧
    (({ channel_ := some ⟨.kOpen, 1023⟩, state_ := .kOpen, max_buffer_size_ := 1024,
        attached_ := true } : PeerDataChannelObserver).Send [1, 2, 3] true
      = (.returned true, [.ChannelSend [1, 2, 3]])) :=
  ⟨(C5_Send_backpressure _ ⟨.kOpen, 1024⟩ [1, 2, 3] true rfl).1 (by decide),
    (C5_Send_backpressure _ ⟨.kOpen, 1023⟩ [1, 2, 3] true rfl).2 (by decide)⟩

/-! ## Writability (C6) -/

/-- C6: `IsWritable` returns true if and only if the channel reference is
non-null, the adapter is open (`IsOpen()`, that is `state_ == kOpen`), and the
channel's buffered amount is zero. -/
theorem C6_IsWritable_iff (o : PeerDataChannelObserver) :
    (o.IsWritable = true ↔
      ∃ c, o.channel_ = some c ∧ o.IsOpen = true ∧ c.buffered_amount = 0) ∧
    (o.IsOpen = true ↔ o.state_ = .kOpen) := by
  constructor
  · unfold PeerDataChannelObserver.IsWritable
    cases hc : o.channel_ with
    | none => simp
    | some c =>
      cases ho : o.IsOpen <;> simp [ho, Nat.pos_iff_ne_zero]
  · simp [PeerDataChannelObserver.IsOpen]

/-! ## Initialize (C7) -/

/-- C7: for a session in state `Closed` with no connectivity handle, whose
factory is asked for a peer connection: if the engine fails to create the peer
connection, or creates it and fails to create the local data channel,
`Initialize` returns false and leaves the connectivity handle and both adapters
absent and the state `Closed`; if both steps succeed it returns true with the
connectivity handle and the local adapter (attached, around the new channel)
present. -/
theorem C7_Initialize_teardown (b : Build) (s : PeerControl)
    (f : PeerConnectionFactoryInterface)
    (hstate : s.state_ = .pClosed) (hpc : s.peer_connection_ = none)
    (hf : s.peer_connection_factory_ = some f) :
    ((f.CreatePeerConnection = none ∨
        ∃ pc, f.CreatePeerConnection = some pc ∧ pc.CreateDataChannel = none) →
      (PeerControl.Initialize b s).ret = .returned false ∧
      (PeerControl.Initialize b s).self.peer_connection_ = none ∧
      (PeerControl.Initialize b s).self.local_data_channel_ = none ∧
      (PeerControl.Initialize b s).self.remote_data_channel_ = none ∧
      (PeerControl.Initialize b s).self.state_ = .pClosed) ∧
    (∀ pc ch, f.CreatePeerConnection = some pc → pc.CreateDataChannel = some ch →
      (PeerControl.Initialize b s).ret = .returned true ∧
      (PeerControl.Initialize b s).self.peer_connection_ = some pc ∧
      (PeerControl.Initialize b s).self.local_data_channel_ =
        some { channel_ := some ch, state_ := ch.state,
               max_buffer_size_ := b.max_buffer_size_, attached_ := true } ∧
      (PeerControl.Initialize b s).self.state_ = .pClosed) := by
  constructor
  · rintro (h | ⟨pc, h1, h2⟩)
    · simp [PeerControl.Initialize, PeerControl.CreatePeerConnection,
        PeerControl.DeletePeerConnection, Outcome.andThen, hpc, hf, h, hstate]
    · simp [PeerControl.Initialize, PeerControl.CreatePeerConnection,
        PeerControl.CreateDataChannel, PeerControl.DeletePeerConnection,
        Outcome.andThen, hpc, hf, h1, h2, hstate]
  · intro pc ch h1 h2
    simp [PeerControl.Initialize, PeerControl.CreatePeerConnection,
      PeerControl.CreateDataChannel, PeerDataChannelObserver.construct,
      PeerControl.Attach, Outcome.andThen, hpc, hf, h1, h2, hstate]

/-- C7 at concrete inputs: a fresh session whose engine cannot create a peer
connection, one whose engine cannot create the data channel, and one whose
engine creates both. -/
theorem C7_Initialize_teardown_witness :
    ((PeerControl.Initialize strictBuild
        (PeerControl.construct "alice" "bob" (some ⟨none⟩))).ret = .returned false) ∧
    ((PeerControl.Initialize strictBuild
        (PeerControl.construct "alice" "bob" (some ⟨some ⟨none⟩⟩))).self.local_data_channel_
      = none) ∧
    ((PeerControl.Initialize strictBuild sampleFresh).ret = .returned true) :=
  ⟨((C7_Initialize_teardown strictBuild (PeerControl.construct "alice" "bob" (some ⟨none⟩))
      ⟨none⟩ rfl rfl rfl).1 (Or.inl rfl)).1,
    ((C7_Initialize_teardown strictBuild
      (PeerControl.construct "alice" "bob" (some ⟨some ⟨none⟩⟩))
      ⟨some ⟨none⟩⟩ rfl rfl rfl).1 (Or.inr ⟨⟨none⟩, rfl, rfl⟩)).2.2.1,
    ((C7_Initialize_teardown strictBuild sampleFresh sampleFactory rfl rfl rfl).2
      ⟨some sampleChannel⟩ sampleChannel rfl rfl).1⟩

/-! ## Reconnect delay configuration (C8) -/

/-- C8, the claim as stated fails: with base delay 500 and max delay 8000,
`set_reconnect_delay_max(100)` does not keep the base at 500 and does not leave
the max at or above 500; both become 100. -/
theorem C8_counterexample :
    (100 < (⟨500, 8000, 0⟩ : Signal).reconn_delay_) ∧
    (Signal.set_reconnect_delay_max 100 ⟨500, 8000, 0⟩).reconn_delay_ = 100 ∧
    (Signal.set_reconnect_delay_max 100 ⟨500, 8000, 0⟩).reconn_delay_max_ = 100 ∧
    ¬ ((Signal.set_reconnect_delay_max 100 ⟨500, 8000, 0⟩).reconn_delay_ = 500 ∧
        500 ≤ (Signal.set_reconnect_delay_max 100 ⟨500, 8000, 0⟩).reconn_delay_max_) := by
  decide

/-- C8, amended: for every base delay `b` currently configured and every value
`m < b`, after `set_reconnect_delay_max(m)` the max reconnect delay is `m` and
the base reconnect delay has been lowered to `m`; the attempt limit is
untouched. -/
theorem C8_delay_max_lowers_base (g : Signal) (m : Nat) (h : m < g.reconn_delay_) :
    (Signal.set_reconnect_delay_max m g).reconn_delay_max_ = m ∧
    (Signal.set_reconnect_delay_max m g).reconn_delay_ = m ∧
    (Signal.set_reconnect_delay_max m g).reconn_attempts_ = g.reconn_attempts_ := by
  simp [Signal.set_reconnect_delay_max, h]

/-- C8, amended, at base 500, max 8000 and `m = 100`. -/
theorem C8_delay_max_lowers_base_witness :
    (100 < (⟨500, 8000, 0⟩ : Signal).reconn_delay_) ∧
    (Signal.set_reconnect_delay_max 100 ⟨500, 8000, 0⟩).reconn_delay_ = 100 :=
  ⟨by decide, (C8_delay_max_lowers_base ⟨500, 8000, 0⟩ 100 (by decide)).2.1⟩

/-! ## Precondition violations (C10) -/

/-- C10, the code at the failing input: in a build where `RTC_DCHECK` is a no-op,
on the open session reached by `sampleOpening`, `CreateOffer`, `CreateAnswer` and
`ReceiveOfferSdp` set the state to `Connecting` and call the engine, and
`ReceiveAnswerSdp` (the state is `Open`, not `Connecting`) calls
`SetRemoteDescription`. -/
theorem C10_release_build_unguarded :
    (run releaseBuild sampleOpening sampleFresh).self = sampleOpen ∧
    (run releaseBuild sampleOpening sampleFresh).ret = .returned () ∧
    sampleOpen.state_ = .pOpen ∧
    PeerControl.CreateOffer releaseBuild sampleOpen =
      ⟨{ sampleOpen with state_ := .pConnecting }, [.state_ .pConnecting, .CreateOffer],
        .returned ()⟩ ∧
    PeerControl.CreateAnswer releaseBuild sampleOpen =
      ⟨{ sampleOpen with state_ := .pConnecting }, [.state_ .pConnecting, .CreateAnswer],
        .returned ()⟩ ∧
    PeerControl.ReceiveOfferSdp releaseBuild "sdp-A" sampleOpen =
      ⟨{ sampleOpen with state_ := .pConnecting },
        [.SetRemoteDescription "offer" "sdp-A", .state_ .pConnecting, .CreateAnswer],
        .returned ()⟩ ∧
    PeerControl.ReceiveAnswerSdp releaseBuild "sdp-B" sampleOpen =
      ⟨sampleOpen, [.SetRemoteDescription "answer" "sdp-B"], .returned ()⟩ := by
  decide

/-! ## Runs: composition lemmas -/

theorem andThen_assoc {α β γ : Type} (o : Outcome α) (f : α → PeerControl → Outcome β)
    (g : β → PeerControl → Outcome γ) :
    (o.andThen f).andThen g = o.andThen fun a s => (f a s).andThen g := by
  unfold Outcome.andThen
  cases hr : o.ret with
  | stopped e => simp
  | returned a =>
    dsimp only
    cases hf : (f a o.self).ret <;> simp

theorem run_append (b : Build) (xs ys : List Op) (s : PeerControl) :
    run b (xs ++ ys) s = (run b xs s).andThen fun _ s1 => run b ys s1 := by
  induction xs generalizing s with
  | nil => simp [run, Outcome.andThen]
  | cons x xs ih =>
    simp only [List.cons_append, run, andThen_assoc]
    congr 1
    funext _ s1
    exact ih s1

theorem run_singleton (b : Build) (op : Op) (s : PeerControl) :
    run b [op] s = step b op s := by
  simp only [run, Outcome.andThen]
  cases hr : (step b op s).ret with
  | stopped e =>
    cases hs : step b op s
    simp_all
  | returned a =>
    cases hs : step b op s
    simp_all

theorem changes_append (start : PeerState) (xs ys : List PeerState) :
    changes start (xs ++ ys) = changes start xs ++ changes (lastAssigned start xs) ys := by
  induction xs generalizing start with
  | nil => rfl
  | cons v vs ih =>
    simp only [List.cons_append, changes, lastAssigned, List.foldl_cons]
    split
    · exact ih v
    · simp [ih v, lastAssigned]

theorem lastAssigned_append (start : PeerState) (xs ys : List PeerState) :
    lastAssigned start (xs ++ ys) = lastAssigned (lastAssigned start xs) ys := by
  simp [lastAssigned]

/-- After a step, `state_` holds the last value the step assigned. -/
theorem step_lastAssigned (b : Build) (op : Op) (s : PeerControl) :
    lastAssigned s.state_ (assignments (step b op s).log) = (step b op s).self.state_ := by
  rcases step_kind b op s with hk | ⟨hk, _⟩ | ⟨hk, _⟩ | ⟨hk, _⟩
  · rw [hk.1, hk.2]; rfl
  · rw [hk.1, hk.2.1]; rfl
  · rw [hk.1, hk.2.1]; rfl
  · rw [hk.1, hk.2.1]; rfl

/-- After a run, `state_` holds the last value the run assigned. -/
theorem run_lastAssigned (b : Build) (ops : List Op) (s : PeerControl) :
    lastAssigned s.state_ (assignments (run b ops s).log) = (run b ops s).self.state_ := by
  induction ops generalizing s with
  | nil => rfl
  | cons op ops ih =>
    simp only [run, Outcome.andThen]
    cases hr : (step b op s).ret with
    | stopped e => exact step_lastAssigned b op s
    | returned a =>
      simp only [assignments_append, lastAssigned_append, step_lastAssigned]
      exact ih _

/-- In a build with `RTC_DCHECK` active, the changes of `state_` within one step
are changes of `CodeOrder`. -/
theorem step_changes (b : Build) (hb : b.RTC_DCHECK_IS_ON = true) (op : Op)
    (s : PeerControl) :
    ∀ p ∈ changes s.state_ (assignments (step b op s).log), CodeOrder p := by
  intro p hp
  rcases step_kind b op s with hk | ⟨hk, _⟩ | ⟨hk, _⟩ | ⟨hk, _⟩
  · rw [hk.1] at hp
    simp [changes] at hp
  · rw [hk.1, hk.2.2 hb] at hp
    simp [changes] at hp
    subst hp
    decide
  · rw [hk.1, hk.2.2.1 hb] at hp
    simp [changes] at hp
    subst hp
    decide
  · rw [hk.1] at hp
    obtain ⟨_, _, h1, h2⟩ := hk
    cases hs : s.state_ <;> simp [hs, changes] at hp h1 h2 <;>
      rcases hp with hp | hp <;> subst hp <;> decide

theorem run_changes (b : Build) (hb : b.RTC_DCHECK_IS_ON = true) (ops : List Op)
    (s : PeerControl) :
    ∀ p ∈ changes s.state_ (assignments (run b ops s).log), CodeOrder p := by
  induction ops generalizing s with
  | nil => intro p hp; simp [run, assignments, changes] at hp
  | cons op ops ih =>
    intro p hp
    simp only [run, Outcome.andThen] at hp
    cases hr : (step b op s).ret with
    | stopped e =>
      rw [hr] at hp
      exact step_changes b hb op s p hp
    | returned a =>
      rw [hr] at hp
      simp only [assignments_append, changes_append, List.mem_append,
        step_lastAssigned] at hp
      rcases hp with hp | hp
      · exact step_changes b hb op s p hp
      · exact ih _ p hp

theorem run_append_of_returned (b : Build) (xs ys : List Op) (s : PeerControl)
    (h : (run b xs s).ret = .returned ()) :
    (run b (xs ++ ys) s).self = (run b ys (run b xs s).self).self ∧
    (run b (xs ++ ys) s).ret = (run b ys (run b xs s).self).ret ∧
    (run b (xs ++ ys) s).log = (run b xs s).log ++ (run b ys (run b xs s).self).log := by
  rw [run_append]
  simp [Outcome.andThen, h]

theorem run_append_of_stopped (b : Build) (xs ys : List Op) (s : PeerControl) (e : Fault)
    (h : (run b xs s).ret = .stopped e) :
    (run b (xs ++ ys) s).self = (run b xs s).self ∧
    (run b (xs ++ ys) s).ret = .stopped e ∧
    (run b (xs ++ ys) s).log = (run b xs s).log := by
  rw [run_append]
  simp [Outcome.andThen, h]

/-- A run that ends with `state_ == Open`, from a session that is not `Open`,
splits at the step that last set `state_` to `Open`. -/
theorem run_open_split (b : Build) (s0 : PeerControl) (h0 : s0.state_ ≠ .pOpen)
    (ops : List Op) (hopen : (run b ops s0).self.state_ = .pOpen) :
    ∃ ops1 ops2, ops = ops1 ++ ops2 ∧
      (run b ops1 s0).ret = .returned () ∧
      (run b ops1 s0).self.state_ = .pOpen ∧
      BothReportOpen (run b ops1 s0).self ∧
      assignments (run b ops2 (run b ops1 s0).self).log = [] := by
  induction ops using List.reverseRecOn with
  | nil => exact absurd hopen h0
  | append_singleton init op ih =>
    cases hR : (run b init s0).ret with
    | stopped e =>
      obtain ⟨hs, _, _⟩ := run_append_of_stopped b init [op] s0 e hR
      rw [hs] at hopen
      obtain ⟨ops1, ops2, hsplit, hret, hst, hboth, hquiet⟩ := ih hopen
      refine ⟨ops1, ops2 ++ [op], by rw [hsplit, List.append_assoc], hret, hst, hboth, ?_⟩
      obtain ⟨_, hr2, _⟩ := run_append_of_returned b ops1 ops2 s0 hret
      rw [← hsplit, hR] at hr2
      obtain ⟨_, _, hl3⟩ := run_append_of_stopped b ops2 [op] _ e hr2.symm
      rw [hl3]
      exact hquiet
    | returned u =>
      obtain ⟨hs, hr, _⟩ := run_append_of_returned b init [op] s0 hR
      rw [run_singleton] at hs hr
      rw [hs] at hopen
      rcases step_kind b op (run b init s0).self with hk | ⟨hk, _⟩ | ⟨hk, _⟩ | ⟨hk, _⟩
      · rw [hk.2] at hopen
        obtain ⟨ops1, ops2, hsplit, hret, hst, hboth, hquiet⟩ := ih hopen
        refine ⟨ops1, ops2 ++ [op], by rw [hsplit, List.append_assoc], hret, hst, hboth, ?_⟩
        obtain ⟨hs2, hr2, _⟩ := run_append_of_returned b ops1 ops2 s0 hret
        rw [← hsplit] at hs2 hr2
        rw [hR] at hr2
        obtain ⟨_, _, hl3⟩ := run_append_of_returned b ops2 [op] _ hr2.symm
        rw [hl3, assignments_append, hquiet, run_singleton, ← hs2, hk.1]
        rfl
      · rw [hk.2.1] at hopen
        exact absurd hopen (by decide)
      · obtain ⟨_, hst, _, hboth, a, hret⟩ := hk
        refine ⟨init ++ [op], [], by simp, ?_, ?_, ?_, rfl⟩
        · rw [hr, hret]
        · rw [hs]; exact hst
        · rw [hs]; exact hboth
      · rw [hk.2.1] at hopen
        exact absurd hopen (by decide)

theorem adapter_setAdapter (w : Slot) (o : Option PeerDataChannelObserver) (s : PeerControl) :
    (s.setAdapter w o).adapter w = o := by
  cases w <;> rfl

/-- After the engine has moved the channel behind slot `w` to `st`, the adapter
in that slot reports `st`, if it reports anything. -/
theorem engineSetsChannelState_reports (w : Slot) (st : DataState) (s : PeerControl)
    (o : PeerDataChannelObserver) (d : DataState)
    (ho : (engineSetsChannelState w st s).adapter w = some o)
    (hd : o.state = .returned d) : d = st := by
  unfold engineSetsChannelState at ho
  cases ha : s.adapter w with
  | none =>
    rw [ha] at ho
    simp [ha] at ho
  | some o0 =>
    rw [ha] at ho
    cases hc : o0.channel_ with
    | none =>
      simp only [hc] at ho
      rw [ha] at ho
      cases ho
      simp [PeerDataChannelObserver.state, hc] at hd
    | some c =>
      simp only [hc, adapter_setAdapter] at ho
      cases ho
      simpa [PeerDataChannelObserver.state] using hd.symm

/-- The state-change callback of an adapter that does not report open assigns
nothing to `state_`. -/
theorem quiet_adapter_OnStateChange_of_ne_open (b : Build) (w : Slot) (s : PeerControl)
    (h : ∀ o d, s.adapter w = some o → o.state = .returned d → d ≠ .kOpen) :
    Quiet s (PeerDataChannelObserver.OnStateChange b w s) := by
  unfold PeerDataChannelObserver.OnStateChange
  split
  · simp [Quiet, assignments]
  · rename_i o ho
    split
    · simp [Quiet, assignments]
    · rename_i d hd
      dsimp only
      rw [if_neg (h o d ho hd)]
      split
      · split
        · have hq := quiet_OnPeerDisconnected (s.setAdapter w (some { o with state_ := d }))
          exact ⟨hq.1, hq.2.trans (setAdapter_state_ _ _ _)⟩
        · exact ⟨rfl, setAdapter_state_ _ _ _⟩
      · exact ⟨rfl, setAdapter_state_ _ _ _⟩

/-- A channel that changes its own state to anything but open assigns nothing to
`state_`. -/
theorem quiet_ChannelStateChange_of_ne_open (b : Build) (w : Slot) (st : DataState)
    (hst : st ≠ .kOpen) (s : PeerControl) :
    Quiet s (step b (.ChannelStateChange w st) s) := by
  have hq := quiet_adapter_OnStateChange_of_ne_open b w (engineSetsChannelState w st s)
    (fun o d ho hd => by rw [engineSetsChannelState_reports w st s o d ho hd]; exact hst)
  exact ⟨hq.1, hq.2.trans (engineSetsChannelState_state_ w st s)⟩

/-! ## State order (C2) -/

/-- C2, the claim as stated fails.  In any build, closing a session that is
still `Connecting` changes `state_` from `Connecting` to `Closing`, which is not
one of the four listed changes.  In a build where `RTC_DCHECK` is a no-op,
`CreateOffer` on an open session changes `state_` from `Open` to `Connecting`. -/
theorem C2_counterexample :
    (run strictBuild [.Initialize, .CreateOffer, .Close .CLOSE_NORMAL] sampleFresh).ret
      = .returned () ∧
    changes sampleFresh.state_
      (assignments
        (run strictBuild [.Initialize, .CreateOffer, .Close .CLOSE_NORMAL] sampleFresh).log)
      = [(.pClosed, .pConnecting), (.pConnecting, .pClosing), (.pClosing, .pClosed)] ∧
    ¬ SpecOrder (.pConnecting, .pClosing) ∧
    (run releaseBuild (sampleOpening ++ [.CreateOffer]) sampleFresh).ret = .returned () ∧
    changes sampleFresh.state_
      (assignments (run releaseBuild (sampleOpening ++ [.CreateOffer]) sampleFresh).log)
      = [(.pClosed, .pConnecting), (.pConnecting, .pOpen), (.pOpen, .pConnecting)] ∧
    ¬ SpecOrder (.pOpen, .pConnecting) := by
  decide

/-- C2, amended: in a build with `RTC_DCHECK` active, for every session and
every sequence of operations and callbacks, every change of `state_` is one of
`Closed -> Connecting`, `Connecting -> Open`, `Connecting -> Closing`,
`Open -> Closing`, `Closing -> Closed`; in particular no state returns to
`Closed` without passing through `Closing` and no state other than `Connecting`
moves to `Open`.  The freshly constructed session, in state `Closed`, is a
special case of `s`. -/
theorem C2_state_order (b : Build) (hb : b.RTC_DCHECK_IS_ON = true) (ops : List Op)
    (s : PeerControl) (p : PeerState × PeerState)
    (hp : p ∈ changes s.state_ (assignments (run b ops s).log)) :
    (p = (.pClosed, .pConnecting) ∨ p = (.pConnecting, .pOpen) ∨
      p = (.pConnecting, .pClosing) ∨ p = (.pOpen, .pClosing) ∨
      p = (.pClosing, .pClosed)) ∧
    (p.2 = .pClosed → p.1 = .pClosing) ∧
    (p.2 = .pOpen → p.1 = .pConnecting) := by
  have h := run_changes b hb ops s p hp
  unfold CodeOrder SpecOrder at h
  rcases h with (h | h | h | h) | h <;> subst h <;> simp

/-- C2, amended, at a concrete run: a fresh session is initialised, offers, and
is closed while still connecting. -/
theorem C2_state_order_witness :
    ((.pConnecting, .pClosing) ∈ changes sampleFresh.state_
      (assignments
        (run strictBuild [.Initialize, .CreateOffer, .Close .CLOSE_NORMAL] sampleFresh).log)) ∧
    (((.pConnecting, .pClosing) : PeerState × PeerState) = (.pClosed, .pConnecting) ∨
      ((.pConnecting, .pClosing) : PeerState × PeerState) = (.pConnecting, .pOpen) ∨
      ((.pConnecting, .pClosing) : PeerState × PeerState) = (.pConnecting, .pClosing) ∨
      ((.pConnecting, .pClosing) : PeerState × PeerState) = (.pOpen, .pClosing) ∨
      ((.pConnecting, .pClosing) : PeerState × PeerState) = (.pClosing, .pClosed)) :=
  ⟨by decide,
    (C2_state_order strictBuild rfl [.Initialize, .CreateOffer, .Close .CLOSE_NORMAL]
      sampleFresh (.pConnecting, .pClosing) (by decide)).1⟩

/-! ## Open and the channels (C9) -/

/-- C9, the claim as stated fails: after a fresh session has become `Open`, its
local data channel changes its own state to closed; every call returns, the
session asks the control layer to close the peer, and `state_` is still `Open`
while the local adapter reports `kClosed`. -/
theorem C9_counterexample :
    (run strictBuild (sampleOpening ++ [.ChannelStateChange .local_data_channel_ .kClosed])
      sampleFresh).ret = .returned () ∧
    (run strictBuild (sampleOpening ++ [.ChannelStateChange .local_data_channel_ .kClosed])
      sampleFresh).self.state_ = .pOpen ∧
    ((run strictBuild (sampleOpening ++ [.ChannelStateChange .local_data_channel_ .kClosed])
      sampleFresh).self.local_data_channel_.map PeerDataChannelObserver.state)
      = some (.returned .kClosed) ∧
    ¬ BothReportOpen
      (run strictBuild (sampleOpening ++ [.ChannelStateChange .local_data_channel_ .kClosed])
        sampleFresh).self := by
  refine ⟨by decide, by decide, by decide, ?_⟩
  rintro ⟨l, r, hl, _, hls, _⟩
  have h : (run strictBuild
      (sampleOpening ++ [.ChannelStateChange .local_data_channel_ .kClosed])
      sampleFresh).self.local_data_channel_.map PeerDataChannelObserver.state
      = some (.returned .kClosed) := by decide
  rw [hl] at h
  simp [hls] at h

/-- C9, amended: in every state reached from a freshly constructed `PeerControl`
by a sequence of its operations and of engine and channel callbacks,
`state_ == Open` implies that both adapters existed and both reported open at
the moment `state_` was last set to `Open`: the sequence splits into a first
part that returns and ends with `state_ == Open` and both adapters reporting
open, and a rest that assigns nothing to `state_`.  A data channel that changes
its own state to closing or closed assigns nothing to `state_`, whatever the
session. -/
theorem C9_open_since_both_reported (b : Build) (local_id remote_id : String)
    (factory : Option PeerConnectionFactoryInterface) (ops : List Op)
    (hopen : (run b ops (PeerControl.construct local_id remote_id factory)).self.state_
      = .pOpen) :
    (∃ ops1 ops2, ops = ops1 ++ ops2 ∧
      (run b ops1 (PeerControl.construct local_id remote_id factory)).ret = .returned () ∧
      (run b ops1 (PeerControl.construct local_id remote_id factory)).self.state_ = .pOpen ∧
      BothReportOpen (run b ops1 (PeerControl.construct local_id remote_id factory)).self ∧
      assignments
        (run b ops2 (run b ops1 (PeerControl.construct local_id remote_id factory)).self).log
        = []) ∧
    (∀ (s : PeerControl) (w : Slot) (st : DataState), st = .kClosing ∨ st = .kClosed →
      assignments (step b (.ChannelStateChange w st) s).log = [] ∧
      (step b (.ChannelStateChange w st) s).self.state_ = s.state_) := by
  refine ⟨run_open_split b (PeerControl.construct local_id remote_id factory)
    (by simp [PeerControl.construct]) ops hopen, ?_⟩
  intro s w st hst
  exact quiet_ChannelStateChange_of_ne_open b w st (by rcases hst with h | h <;> simp [h]) s

/-- C9, amended, at a concrete run: the session opens and then its local channel
closes. -/
theorem C9_open_since_both_reported_witness :
    (run strictBuild (sampleOpening ++ [.ChannelStateChange .local_data_channel_ .kClosed])
      (PeerControl.construct "alice" "bob" (some sampleFactory))).self.state_ = .pOpen ∧
    ∃ ops1 ops2,
      sampleOpening ++ [.ChannelStateChange .local_data_channel_ .kClosed] = ops1 ++ ops2 ∧
      (run strictBuild ops1 (PeerControl.construct "alice" "bob" (some sampleFactory))).ret
        = .returned () ∧
      (run strictBuild ops1
        (PeerControl.construct "alice" "bob" (some sampleFactory))).self.state_ = .pOpen ∧
      BothReportOpen
        (run strictBuild ops1 (PeerControl.construct "alice" "bob" (some sampleFactory))).self ∧
      assignments
        (run strictBuild ops2
          (run strictBuild ops1
            (PeerControl.construct "alice" "bob" (some sampleFactory))).self).log = [] :=
  ⟨by decide,
    (C9_open_since_both_reported strictBuild "alice" "bob" (some sampleFactory)
      (sampleOpening ++ [.ChannelStateChange .local_data_channel_ .kClosed]) (by decide)).1⟩

/-! ## Answering an offer (C11) -/

/-- C11: for a session in state `Closed` that holds a connectivity handle,
`ReceiveOfferSdp(sdp)` calls `SetRemoteDescription(offer, sdp)` on the engine,
then requests an answer, returns, and leaves the state `Connecting` with nothing
else changed.  If `OnSuccess` is then delivered with a description of type answer
that serialises to `a`, the session sets the local description to `(answer, a)`
and sends exactly one command, `SendCommand(remote_id, "answersdp", {sdp: a})`,
and nothing else changes.  An `OnSuccess` delivered to a session whose state is
not `Connecting` returns with no call made and the session unchanged. -/
theorem C11_answering_an_offer (b : Build) (s : PeerControl)
    (pc : PeerConnectionInterface) (sdp : String)
    (hstate : s.state_ = .pClosed) (hpc : s.peer_connection_ = some pc) :
    PeerControl.ReceiveOfferSdp b sdp s =
      ⟨{ s with state_ := .pConnecting },
        [.SetRemoteDescription kOffer sdp, .state_ .pConnecting, .CreateAnswer],
        .returned ()⟩ ∧
    (∀ a : String,
      PeerControl.OnSuccess { type := kAnswer, ToString := some a }
          (PeerControl.ReceiveOfferSdp b sdp s).self =
        ⟨{ s with state_ := .pConnecting },
          [.SetLocalDescription kAnswer a,
            .SendCommand s.remote_id_ "answersdp" [("sdp", .str a)]],
          .returned ()⟩) ∧
    (∀ (t : PeerControl) (desc : SessionDescriptionInterface), t.state_ ≠ .pConnecting →
      PeerControl.OnSuccess desc t = ⟨t, [], .returned ()⟩) := by
  have h1 : PeerControl.ReceiveOfferSdp b sdp s =
      ⟨{ s with state_ := .pConnecting },
        [.SetRemoteDescription kOffer sdp, .state_ .pConnecting, .CreateAnswer],
        .returned ()⟩ := by
    simp [PeerControl.ReceiveOfferSdp, PeerControl.SetRemoteDescription,
      PeerControl.CreateAnswer, Outcome.andThen, hstate, hpc]
  refine ⟨h1, ?_, ?_⟩
  · intro a
    rw [h1]
    have hne : kAnswer ≠ kOffer := by decide
    simp [PeerControl.OnSuccess, PeerControl.SetLocalDescription, Outcome.andThen, hpc, hne]
  · intro t desc ht
    unfold PeerControl.OnSuccess
    cases hd : desc.ToString with
    | none => rfl
    | some a => simp [ht]

/-- C11 at a concrete session: the initialised session between "alice" and "bob"
receives the offer "sdp-A", and the engine then delivers the answer "sdp-B". -/
theorem C11_answering_an_offer_witness :
    PeerControl.ReceiveOfferSdp strictBuild "sdp-A"
        (run strictBuild [.Initialize] sampleFresh).self =
      ⟨{ (run strictBuild [.Initialize] sampleFresh).self with state_ := .pConnecting },
        [.SetRemoteDescription "offer" "sdp-A", .state_ .pConnecting, .CreateAnswer],
        .returned ()⟩ ∧
    (PeerControl.OnSuccess { type := "answer", ToString := some "sdp-B" }
        (PeerControl.ReceiveOfferSdp strictBuild "sdp-A"
          (run strictBuild [.Initialize] sampleFresh).self).self).log =
      [.SetLocalDescription "answer" "sdp-B",
        .SendCommand "bob" "answersdp" [("sdp", .str "sdp-B")]] :=
  ⟨(C11_answering_an_offer strictBuild (run strictBuild [.Initialize] sampleFresh).self
      ⟨some sampleChannel⟩ "sdp-A" (by decide) (by decide)).1,
    congrArg Outcome.log
      ((C11_answering_an_offer strictBuild (run strictBuild [.Initialize] sampleFresh).self
        ⟨some sampleChannel⟩ "sdp-A" (by decide) (by decide)).2.1 "sdp-B")⟩

/-! ## Reconnect delay invariant (C12) -/

/-- C12: for every prior configuration and every value `m`,
`set_reconnect_delay(m)` sets the base delay to `m` and leaves the max delay at
`max(old max, m)`; `set_reconnect_delay_max(m)` sets the max delay to `m` and
leaves the base delay at `min(old base, m)`; after either call the base delay is
at most the max delay.  Neither touches the attempt limit. -/
theorem C12_reconnect_delay_invariant (g : Signal) (m : Nat) :
    ((Signal.set_reconnect_delay m g).reconn_delay_ = m ∧
      (Signal.set_reconnect_delay m g).reconn_delay_max_ = max g.reconn_delay_max_ m ∧
      (Signal.set_reconnect_delay m g).reconn_attempts_ = g.reconn_attempts_ ∧
      (Signal.set_reconnect_delay m g).reconn_delay_ ≤
        (Signal.set_reconnect_delay m g).reconn_delay_max_) ∧
    ((Signal.set_reconnect_delay_max m g).reconn_delay_max_ = m ∧
      (Signal.set_reconnect_delay_max m g).reconn_delay_ = min g.reconn_delay_ m ∧
      (Signal.set_reconnect_delay_max m g).reconn_attempts_ = g.reconn_attempts_ ∧
      (Signal.set_reconnect_delay_max m g).reconn_delay_ ≤
        (Signal.set_reconnect_delay_max m g).reconn_delay_max_) := by
  constructor
  · unfold Signal.set_reconnect_delay
    by_cases h : g.reconn_delay_max_ < m
    · simp [h, Nat.max_eq_right (Nat.le_of_lt h)]
    · simp [h, Nat.max_eq_left (Nat.le_of_not_lt h), Nat.le_of_not_lt h]
  · unfold Signal.set_reconnect_delay_max
    by_cases h : g.reconn_delay_ > m
    · simp [h, Nat.min_eq_right (Nat.le_of_lt h)]
    · simp [h, Nat.min_eq_left (Nat.le_of_not_lt h), Nat.le_of_not_lt h]

end peerapi
